import Mathlib

/-!
# Verification of the Widget / WidgetType CRUD application

A shallow embedding of the widget / widget-type domain logic of the
`sample-app` repository, together with proofs of the specification's
claims about it.

JavaScript strings are modelled as lists of Unicode code points
(`Str := List Nat`); the string operations the code uses
(`String.prototype.trim`, `String.prototype.toUpperCase` on ASCII,
`String.prototype.includes`, the regular-expression tests of
`WidgetTypeLib.ts`) are defined below on that representation.
Fallible operations return `Except String`.
-/

/-- JavaScript strings as lists of Unicode code points. -/
abbrev Str := List Nat

/-- Code points of a Lean string literal, for writing concrete `Str` values. -/
def str (s : String) : Str := s.data.map Char.toNat

/-- The set of code points removed by `String.prototype.trim`
(ECMAScript WhiteSpace and LineTerminator). -/
def jsWhitespaceB (c : Nat) : Bool :=
  c == 9 || c == 10 || c == 11 || c == 12 || c == 13 || c == 32 || c == 160 ||
  c == 5760 || (decide (8192 ≤ c) && decide (c ≤ 8202)) || c == 8232 ||
  c == 8233 || c == 8239 || c == 8287 || c == 12288 || c == 65279

/-- Remove leading JS whitespace. -/
def trimLeft (s : Str) : Str := s.dropWhile jsWhitespaceB

/-- Remove trailing JS whitespace. -/
def trimRight (s : Str) : Str := (s.reverse.dropWhile jsWhitespaceB).reverse

/-- `String.prototype.trim`. -/
def jsTrim (s : Str) : Str := trimRight (trimLeft s)

/-- ASCII lowercase letter (`[a-z]`). -/
def isLowerB (c : Nat) : Bool := decide (97 ≤ c) && decide (c ≤ 122)

/-- ASCII uppercase letter (`[A-Z]`). -/
def isUpperB (c : Nat) : Bool := decide (65 ≤ c) && decide (c ≤ 90)

/-- `[a-zA-Z_]`: ASCII letter or underscore. -/
def letterOrUnderscoreB (c : Nat) : Bool := isLowerB c || isUpperB c || c == 95

/-- `[A-Z_]`: ASCII uppercase letter or underscore. -/
def upperOrUnderscoreB (c : Nat) : Bool := isUpperB c || c == 95

/-- `String.prototype.toUpperCase` on a single ASCII code point
(the widget-type code alphabet is ASCII). -/
def toUpperChar (c : Nat) : Nat := if 97 ≤ c ∧ c ≤ 122 then c - 32 else c

/-- `String.prototype.toUpperCase`. -/
def jsToUpper (s : Str) : Str := s.map toUpperChar

/-- `/^[a-zA-Z_]+$/.test s` (WidgetTypeLib.ts line 103). -/
def reLettersUnderscoreOnly (s : Str) : Bool :=
  !s.isEmpty && s.all letterOrUnderscoreB

/-- `/^[a-z]+$/.test s` (WidgetTypeLib.ts line 108). -/
def reAllLowercase (s : Str) : Bool := !s.isEmpty && s.all isLowerB

/-- `/[A-Z]/.test s` (WidgetTypeLib.ts line 113). -/
def hasUpper (s : Str) : Bool := s.any isUpperB

/-- `/[a-z]/.test s` (WidgetTypeLib.ts line 113). -/
def hasLower (s : Str) : Bool := s.any isLowerB

/-- `String.prototype.includes` (substring test, used by the route handlers). -/
def jsIncludes (s sub : Str) : Bool :=
  match s with
  | [] => sub.isEmpty
  | _ :: t => sub.isPrefixOf s || jsIncludes t sub

/-- JS truthiness of an optional string field: `undefined` and `""` are falsy. -/
def jsTruthy : Option Str → Bool
  | none => false
  | some s => !s.isEmpty

-- ### Basic lemmas about the string model

theorem jsWhitespaceB_toUpperChar (c : Nat) :
    jsWhitespaceB (toUpperChar c) = jsWhitespaceB c := by
  unfold toUpperChar
  split
  · next h =>
    have h1 : ¬ jsWhitespaceB c = true := by
      simp only [jsWhitespaceB, Bool.or_eq_true, beq_iff_eq, Bool.and_eq_true,
        decide_eq_true_eq]
      omega
    have h2 : ¬ jsWhitespaceB (c - 32) = true := by
      simp only [jsWhitespaceB, Bool.or_eq_true, beq_iff_eq, Bool.and_eq_true,
        decide_eq_true_eq]
      omega
    simp [Bool.eq_false_iff.mpr h1, Bool.eq_false_iff.mpr h2]
  · rfl

theorem dropWhile_ws_jsToUpper (s : Str) :
    (jsToUpper s).dropWhile jsWhitespaceB = jsToUpper (s.dropWhile jsWhitespaceB) := by
  induction s with
  | nil => rfl
  | cons a t ih =>
    simp only [jsToUpper, List.map_cons, List.dropWhile_cons,
      jsWhitespaceB_toUpperChar a]
    by_cases h : jsWhitespaceB a = true
    · simpa [h] using ih
    · simp [h]

theorem jsToUpper_reverse (s : Str) :
    jsToUpper s.reverse = (jsToUpper s).reverse := by
  simp [jsToUpper, List.map_reverse]

/-- `toUpperCase` commutes with `trim`. -/
theorem jsTrim_jsToUpper (s : Str) :
    jsTrim (jsToUpper s) = jsToUpper (jsTrim s) := by
  unfold jsTrim trimLeft trimRight
  rw [dropWhile_ws_jsToUpper, ← jsToUpper_reverse, dropWhile_ws_jsToUpper,
    ← jsToUpper_reverse]

theorem dropWhile_idem (p : Nat → Bool) (l : Str) :
    (l.dropWhile p).dropWhile p = l.dropWhile p := by
  induction l with
  | nil => rfl
  | cons a t ih =>
    by_cases h : p a = true
    · simpa [List.dropWhile_cons, h] using ih
    · simp [List.dropWhile_cons, h]

theorem trimLeft_idem (s : Str) : trimLeft (trimLeft s) = trimLeft s :=
  dropWhile_idem _ s

theorem trimRight_idem (s : Str) : trimRight (trimRight s) = trimRight s := by
  unfold trimRight
  rw [List.reverse_reverse, dropWhile_idem]

theorem trimRight_isPrefixOfSelf (s : Str) : trimRight s <+: s := by
  have h : s.reverse.dropWhile jsWhitespaceB <:+ s.reverse :=
    List.dropWhile_suffix jsWhitespaceB
  have h2 : (s.reverse.dropWhile jsWhitespaceB).reverse.reverse <:+ s.reverse := by
    simpa using h
  have := List.reverse_prefix.mpr h2
  simpa [trimRight] using this

theorem dropWhile_eq_self_of_front {p : Nat → Bool} {x y : Str}
    (hpre : y <+: x) (hx : x.dropWhile p = x) : y.dropWhile p = y := by
  cases y with
  | nil => rfl
  | cons a t =>
    obtain ⟨r, hr⟩ := hpre
    subst hr
    have hpa : p a = false := by
      by_contra hcon
      have hpa' : p a = true := by
        cases hpab : p a
        · exact absurd hpab hcon
        · rfl
      rw [List.cons_append, List.dropWhile_cons, if_pos hpa'] at hx
      have hlen := (List.dropWhile_sublist (l := t ++ r) p).length_le
      have hlen2 := congrArg List.length hx
      rw [List.length_cons] at hlen2
      omega
    simp [List.dropWhile_cons, hpa]

theorem trimLeft_trimRight_of_fixed {x : Str} (hx : trimLeft x = x) :
    trimLeft (trimRight x) = trimRight x :=
  dropWhile_eq_self_of_front (trimRight_isPrefixOfSelf x) hx

/-- `trim` is idempotent. -/
theorem jsTrim_idem (s : Str) : jsTrim (jsTrim s) = jsTrim s := by
  unfold jsTrim
  rw [trimLeft_trimRight_of_fixed (trimLeft_idem s), trimRight_idem]

theorem toUpperChar_idem (c : Nat) : toUpperChar (toUpperChar c) = toUpperChar c := by
  unfold toUpperChar
  split
  · rw [if_neg]
    omega
  · rfl

theorem jsToUpper_idem (s : Str) : jsToUpper (jsToUpper s) = jsToUpper s := by
  simp [jsToUpper, List.map_map, Function.comp_def, toUpperChar_idem]

theorem jsToUpper_length (s : Str) : (jsToUpper s).length = s.length := by
  simp [jsToUpper]

theorem jsTrim_nil : jsTrim [] = [] := rfl

/-- A string whose code points are all uppercase-or-underscore has no
whitespace, so `trim` leaves it unchanged. -/
theorem jsTrim_eq_self_of_upperOrUnderscore {s : Str}
    (h : ∀ c ∈ s, upperOrUnderscoreB c = true) : jsTrim s = s := by
  have hws : ∀ c ∈ s, jsWhitespaceB c = false := by
    intro c hc
    have hcu := h c hc
    simp only [upperOrUnderscoreB, isUpperB, Bool.or_eq_true, Bool.and_eq_true,
      decide_eq_true_eq, beq_iff_eq] at hcu
    cases hb : jsWhitespaceB c
    · rfl
    · exfalso
      simp only [jsWhitespaceB, Bool.or_eq_true, beq_iff_eq, Bool.and_eq_true,
        decide_eq_true_eq] at hb
      omega
  have hdrop : ∀ (l : Str), (∀ c ∈ l, jsWhitespaceB c = false) →
      l.dropWhile jsWhitespaceB = l := by
    intro l hl
    induction l with
    | nil => rfl
    | cons a t ih =>
      simp only [List.dropWhile_cons, hl a (List.mem_cons_self a t)]
      simp
  unfold jsTrim trimLeft trimRight
  rw [hdrop s hws, hdrop s.reverse (by intro c hc; exact hws c (List.mem_reverse.mp hc)),
    List.reverse_reverse]

/-- A string with no lowercase letters is unchanged by `toUpperCase`. -/
theorem jsToUpper_eq_self_of_upperOrUnderscore {s : Str}
    (h : ∀ c ∈ s, upperOrUnderscoreB c = true) : jsToUpper s = s := by
  unfold jsToUpper
  have : s.map toUpperChar = s.map id := by
    apply List.map_congr_left
    intro c hc
    have hcu := h c hc
    simp only [upperOrUnderscoreB, isUpperB, Bool.or_eq_true, Bool.and_eq_true,
      decide_eq_true_eq, beq_iff_eq] at hcu
    unfold toUpperChar
    simp only [id_eq]
    split <;> omega
  rw [this, List.map_id]

theorem letterOrUnderscore_toUpper {c : Nat} (h : letterOrUnderscoreB c = true) :
    upperOrUnderscoreB (toUpperChar c) = true := by
  simp only [letterOrUnderscoreB, isLowerB, isUpperB, Bool.or_eq_true,
    Bool.and_eq_true, decide_eq_true_eq, beq_iff_eq] at h
  simp only [upperOrUnderscoreB, isUpperB, toUpperChar, Bool.or_eq_true,
    Bool.and_eq_true, decide_eq_true_eq, beq_iff_eq]
  split <;> omega

-- quick sanity checks of the string model
example : jsTrim (str "  Test Widget  ") = str "Test Widget" := by decide
example : jsToUpper (str "test_lowercase") = str "TEST_LOWERCASE" := by decide
example : reAllLowercase (str "button") = true := by decide
example : reLettersUnderscoreOnly (str "Mixed_Case") = true := by decide
example : hasUpper (str "Mixed_Case") && hasLower (str "Mixed_Case") = true := by decide
example : jsIncludes (str "Validation failed: Create Validation Failed") (str "Validation failed") = true := by decide
example : jsIncludes (str "Item not found for key") (str "not found") = true := by decide

-- ### The WidgetType library (src/lib/WidgetTypeLib.ts)

/-- A partial WidgetType payload (`Partial<WidgetType | WidgetTypeProperties>`):
`none` models an `undefined` field. -/
structure WidgetTypeInput where
  code : Option Str := none
  name : Option Str := none
  description : Option Str := none
  isActive : Option Bool := none
deriving DecidableEq, Repr

/-- The error message thrown by the code-format checks
(WidgetTypeLib.ts lines 104, 109, 114). -/
def codeFormatMsg : String :=
  "Widget type code must contain only uppercase letters and underscores"

/-- The three code-format checks shared by the `preCreate` hook
(WidgetTypeLib.ts lines 99-116) and the `preUpdate` hook (lines 139-156):
only letters and underscores, no pure-lowercase codes, no mixed-case codes. -/
def checkCodeFormat (c : Str) : Except String Unit :=
  if !reLettersUnderscoreOnly (jsTrim c) then .error codeFormatMsg
  else if reAllLowercase (jsTrim c) then .error codeFormatMsg
  else if hasUpper (jsTrim c) && hasLower (jsTrim c) then .error codeFormatMsg
  else .ok ()

/-- `widgetType.code = widgetType.code.toUpperCase().trim()` guarded by JS
truthiness (WidgetTypeLib.ts lines 119-121 and 159-161). -/
def normTruthyCode (o : Option Str) : Option Str :=
  match o with
  | some c => if c.isEmpty then some c else some (jsTrim (jsToUpper c))
  | none => none

/-- `widgetType.name = widgetType.name.trim()` guarded by JS truthiness
(WidgetTypeLib.ts lines 124-126 and 164-166). -/
def normTruthyName (o : Option Str) : Option Str :=
  match o with
  | some n => if n.isEmpty then some n else some (jsTrim n)
  | none => none

/-- `hooks.preCreate` (WidgetTypeLib.ts lines 95-133): format-check the code
before normalization, then uppercase+trim the code, trim the name, and
default `isActive` to `true`. -/
def preCreateWidgetType (wt : WidgetTypeInput) : Except String WidgetTypeInput :=
  match (if jsTruthy wt.code then checkCodeFormat (wt.code.getD []) else .ok ()) with
  | .error e => .error e
  | .ok _ =>
    .ok { code := normTruthyCode wt.code, name := normTruthyName wt.name,
          description := wt.description,
          isActive := some (wt.isActive.getD true) }

/-- `hooks.preUpdate` (WidgetTypeLib.ts lines 135-169): the same format checks
and normalization, applied only to the fields being updated; `isActive` is not
defaulted. -/
def preUpdateWidgetType (u : WidgetTypeInput) : Except String WidgetTypeInput :=
  match (if jsTruthy u.code then checkCodeFormat (u.code.getD []) else .ok ()) with
  | .error e => .error e
  | .ok _ =>
    .ok { code := normTruthyCode u.code, name := normTruthyName u.name,
          description := u.description, isActive := u.isActive }

/-- Code errors collected by `validators.onCreate` (WidgetTypeLib.ts lines 31-39). -/
def createCodeErrors (o : Option Str) : List String :=
  if !(jsTruthy o) || (jsTrim (o.getD [])).isEmpty then
    ["Widget type code is required"]
  else if (jsTrim (o.getD [])).length > 50 then
    ["Widget type code must be 50 characters or less"]
  else []

/-- Name errors collected by `validators.onCreate` (WidgetTypeLib.ts lines 41-46). -/
def createNameErrors (o : Option Str) : List String :=
  if !(jsTruthy o) || (jsTrim (o.getD [])).isEmpty then
    ["Widget type name is required"]
  else if (o.getD []).length > 255 then
    ["Widget type name must be 255 characters or less"]
  else []

/-- Code errors collected by `validators.onUpdate` (WidgetTypeLib.ts lines
57-67): only checked when the field is present in the updates. -/
def updateCodeErrors (o : Option Str) : List String :=
  match o with
  | none => []
  | some c =>
    if c.isEmpty || (jsTrim c).isEmpty then ["Widget type code is required"]
    else if (jsTrim c).length > 50 then
      ["Widget type code must be 50 characters or less"]
    else []

/-- Name errors collected by `validators.onUpdate` (WidgetTypeLib.ts lines
69-76). -/
def updateNameErrors (o : Option Str) : List String :=
  match o with
  | none => []
  | some n =>
    if n.isEmpty || (jsTrim n).isEmpty then ["Widget type name is required"]
    else if n.length > 255 then
      ["Widget type name must be 255 characters or less"]
    else []

/-- `validators.onCreate` (WidgetTypeLib.ts lines 28-53): collect the field
errors and throw them joined with "; ". -/
def onCreateWidgetType (item : WidgetTypeInput) : Except String Unit :=
  match createCodeErrors item.code ++ createNameErrors item.name with
  | [] => .ok ()
  | errs => .error (String.intercalate "; " errs)

/-- `validators.onUpdate` (WidgetTypeLib.ts lines 54-92): collect the field
errors, throw them joined with "; ", and normalize the accepted updates
("Only normalize AFTER validation passes", lines 82-89). -/
def onUpdateWidgetType (u : WidgetTypeInput) : Except String WidgetTypeInput :=
  match updateCodeErrors u.code ++ updateNameErrors u.name with
  | [] => .ok { u with code := normTruthyCode u.code, name := normTruthyName u.name }
  | errs => .error (String.intercalate "; " errs)

/-- The WidgetType create validation pipeline: the `preCreate` hook runs first
(it format-checks and normalizes), then the `onCreate` validator
(its comments state the item "should already be normalized by preCreate"). -/
def createWidgetTypePipeline (input : WidgetTypeInput) : Except String WidgetTypeInput :=
  match preCreateWidgetType input with
  | .error e => .error e
  | .ok wt =>
    match onCreateWidgetType wt with
    | .error e => .error e
    | .ok _ => .ok wt

/-- The WidgetType update validation pipeline: the `preUpdate` hook, then the
`onUpdate` validator (which re-normalizes the accepted updates). -/
def updateWidgetTypePipeline (u : WidgetTypeInput) : Except String WidgetTypeInput :=
  match preUpdateWidgetType u with
  | .error e => .error e
  | .ok u2 => onUpdateWidgetType u2

-- ### Database state (src/database/seed.ts model definitions)

/-- A stored row of the `widget_types` table. -/
structure WidgetTypeRec where
  id : Nat
  code : Str
  name : Str
  description : Option Str := none
  isActive : Bool := true
deriving DecidableEq, Repr

/-- A stored row of the `widgets` table; `data` is the serialized JSON blob. -/
structure WidgetRec where
  id : Nat
  widgetTypeId : Nat
  name : Str
  description : Option Str := none
  isActive : Bool := true
  data : Option Str := none
deriving DecidableEq, Repr

/-- The relational state: the two tables of the reference setup. -/
structure DB where
  widgetTypes : List WidgetTypeRec := []
  widgets : List WidgetRec := []
deriving DecidableEq, Repr

/-- Creating a WidgetType against the database: run the validation pipeline,
then insert subject to the primary-key and the `unique: true` constraint on
`code` (seed.ts lines 233-241). A thrown error stores nothing. -/
def dbCreateWidgetType (db : DB) (input : WidgetTypeInput) (newId : Nat) :
    Except String DB :=
  match createWidgetTypePipeline input with
  | .error e => .error e
  | .ok wt =>
    let row : WidgetTypeRec :=
      { id := newId, code := wt.code.getD [], name := wt.name.getD [],
        description := wt.description, isActive := wt.isActive.getD true }
    if db.widgetTypes.any (fun r => r.id == newId) then
      .error "Validation error: primary key must be unique"
    else if db.widgetTypes.any (fun r => r.code == row.code) then
      .error "Validation error: code must be unique"
    else .ok { db with widgetTypes := db.widgetTypes ++ [row] }

/-- Updating a WidgetType: locate the row, run the update validation pipeline,
apply the accepted (normalized) updates, and re-check the unique constraint on
`code` against the other rows. -/
def dbUpdateWidgetType (db : DB) (id : Nat) (updates : WidgetTypeInput) :
    Except String DB :=
  match db.widgetTypes.find? (fun r => r.id == id) with
  | none => .error "widgetType not found"
  | some row =>
    match updateWidgetTypePipeline updates with
    | .error e => .error e
    | .ok u =>
      let row2 : WidgetTypeRec :=
        { id := row.id, code := u.code.getD row.code, name := u.name.getD row.name,
          description := match u.description with
            | some d => some d
            | none => row.description,
          isActive := u.isActive.getD row.isActive }
      if db.widgetTypes.any (fun r => r.id != id && r.code == row2.code) then
        .error "Validation error: code must be unique"
      else
        .ok { db with
          widgetTypes := db.widgetTypes.map (fun r => if r.id == id then row2 else r) }

/-- Removing a WidgetType: `deleteOnRemove: true` (WidgetTypeLib.ts line 26)
performs a hard delete of the `widget_types` row. The `hasMany` association
(seed.ts lines 335-338) specifies no `onDelete` cascade, so only the
widget-type row itself is destroyed and the `widgets` table is not touched. -/
def dbRemoveWidgetType (db : DB) (id : Nat) : Except String DB :=
  match db.widgetTypes.find? (fun r => r.id == id) with
  | none => .error "widgetType not found"
  | some _ =>
    .ok { db with widgetTypes := db.widgetTypes.filter (fun r => r.id != id) }

-- sanity checks against the WidgetTypeLib tests
example : (createWidgetTypePipeline
    { code := some (str "test_lowercase"), name := some (str "Test Widget Type") }).isOk
    = true := by decide
example : (createWidgetTypePipeline
    { code := some (str "  TEST_TRIM  "), name := some (str "  Test Trim Widget  ") })
    = .ok { code := some (str "TEST_TRIM"), name := some (str "Test Trim Widget"),
            description := none, isActive := some true } := by rfl
example : (createWidgetTypePipeline
    { code := some (str "lowercase"), name := some (str "Test Widget Type") })
    = .error codeFormatMsg := by rfl
example : (createWidgetTypePipeline
    { code := some (str "INVALID-DASH"), name := some (str "Test Widget Type") })
    = .error codeFormatMsg := by rfl
example : (createWidgetTypePipeline
    { code := some [], name := some (str "Test Widget Type") })
    = .error "Widget type code is required" := by rfl
example : (updateWidgetTypePipeline { code := some (str "  updated_lowercase_code  ") }).isOk
    = true := by decide

deriving instance DecidableEq for Except

-- ### Facts extracted from the validation pipeline

theorem checkCodeFormat_ok_re {c : Str} (h : checkCodeFormat c = .ok ()) :
    reLettersUnderscoreOnly (jsTrim c) = true := by
  unfold checkCodeFormat at h
  split at h
  · exact Except.noConfusion h
  · next hre =>
    simp only [Bool.not_eq_true', Bool.not_eq_false] at hre
    exact hre

theorem checkCodeFormat_error_of_bad_char {c : Str} {ch : Nat}
    (hmem : ch ∈ jsTrim c) (hch : letterOrUnderscoreB ch = false) :
    checkCodeFormat c = .error codeFormatMsg := by
  have hre : reLettersUnderscoreOnly (jsTrim c) = false := by
    unfold reLettersUnderscoreOnly
    have hall : (jsTrim c).all letterOrUnderscoreB = false := by
      rw [Bool.eq_false_iff]
      intro hall
      rw [List.all_eq_true] at hall
      exact absurd (hall ch hmem) (by simp [hch])
    simp [hall]
  unfold checkCodeFormat
  rw [hre]
  simp

theorem createCodeErrors_nil {o : Option Str} (h : createCodeErrors o = []) :
    jsTruthy o = true ∧ (jsTrim (o.getD [])).isEmpty = false ∧
      (jsTrim (o.getD [])).length ≤ 50 := by
  unfold createCodeErrors at h
  split at h
  · exact List.noConfusion h
  · next hreq =>
    split at h
    · exact List.noConfusion h
    · next hlen =>
      simp only [Bool.or_eq_true, Bool.not_eq_true', not_or, Bool.not_eq_false,
        Bool.not_eq_true] at hreq
      refine ⟨hreq.1, hreq.2, ?_⟩
      omega

theorem createNameErrors_nil {o : Option Str} (h : createNameErrors o = []) :
    jsTruthy o = true ∧ (jsTrim (o.getD [])).isEmpty = false ∧
      (o.getD []).length ≤ 255 := by
  unfold createNameErrors at h
  split at h
  · exact List.noConfusion h
  · next hreq =>
    split at h
    · exact List.noConfusion h
    · next hlen =>
      simp only [Bool.or_eq_true, Bool.not_eq_true', not_or, Bool.not_eq_false,
        Bool.not_eq_true] at hreq
      refine ⟨hreq.1, hreq.2, ?_⟩
      omega

theorem onCreateWidgetType_ok {wt : WidgetTypeInput}
    (h : onCreateWidgetType wt = .ok ()) :
    createCodeErrors wt.code = [] ∧ createNameErrors wt.name = [] := by
  unfold onCreateWidgetType at h
  split at h
  · next heq => exact List.append_eq_nil.mp heq
  · exact Except.noConfusion h

theorem preCreate_ok_shape {i wt0 : WidgetTypeInput}
    (h : preCreateWidgetType i = .ok wt0) :
    (if jsTruthy i.code then checkCodeFormat (i.code.getD []) else Except.ok ()) = .ok () ∧
    wt0 = { code := normTruthyCode i.code, name := normTruthyName i.name,
            description := i.description, isActive := some (i.isActive.getD true) } := by
  unfold preCreateWidgetType at h
  cases hfmt : (if jsTruthy i.code then checkCodeFormat (i.code.getD []) else Except.ok ()) with
  | error e =>
    rw [hfmt] at h
    exact Except.noConfusion h
  | ok u =>
    cases u
    rw [hfmt] at h
    have h2 : Except.ok (ε := String)
        ({ code := normTruthyCode i.code, name := normTruthyName i.name,
           description := i.description,
           isActive := some (i.isActive.getD true) } : WidgetTypeInput) = .ok wt0 := h
    cases h2
    exact ⟨rfl, rfl⟩

theorem createPipeline_ok_split {i wt : WidgetTypeInput}
    (h : createWidgetTypePipeline i = .ok wt) :
    preCreateWidgetType i = .ok wt ∧ onCreateWidgetType wt = .ok () := by
  unfold createWidgetTypePipeline at h
  cases hpre : preCreateWidgetType i with
  | error e =>
    rw [hpre] at h
    exact Except.noConfusion h
  | ok wt0 =>
    rw [hpre] at h
    dsimp only at h
    cases hval : onCreateWidgetType wt0 with
    | error e =>
      rw [hval] at h
      exact Except.noConfusion h
    | ok u =>
      cases u
      rw [hval] at h
      have h2 : Except.ok (ε := String) wt0 = .ok wt := h
      cases h2
      exact ⟨rfl, hval⟩

theorem createPipeline_error_of_preCreate {i : WidgetTypeInput} {e : String}
    (h : preCreateWidgetType i = .error e) :
    createWidgetTypePipeline i = .error e := by
  unfold createWidgetTypePipeline
  rw [h]

/-- When the submitted code is truthy and fails the format checks, `preCreate`
throws the format error. -/
theorem preCreate_error_of_checkFormat {i : WidgetTypeInput} {c : Str} {e : String}
    (hc : i.code = some c) (hne : c ≠ [])
    (hfmt : checkCodeFormat c = .error e) :
    preCreateWidgetType i = .error e := by
  unfold preCreateWidgetType
  rw [hc]
  have ht : jsTruthy (some c) = true := by
    simp [jsTruthy, List.isEmpty_iff, hne]
  rw [ht]
  simp only [if_true, Option.getD_some]
  rw [hfmt]

/-- A successful create pipeline run accepts exactly a truthy code that passes
the format checks, and stores it uppercased and trimmed. -/
theorem createPipeline_ok_code {i wt : WidgetTypeInput}
    (h : createWidgetTypePipeline i = .ok wt) :
    ∃ c, i.code = some c ∧ wt.code = some (jsToUpper (jsTrim c)) ∧
      reLettersUnderscoreOnly (jsTrim c) = true ∧ (jsTrim c).length ≤ 50 := by
  obtain ⟨hpre, hval⟩ := createPipeline_ok_split h
  obtain ⟨hfmt, hshape⟩ := preCreate_ok_shape hpre
  obtain ⟨hct, hcne, hclen⟩ := createCodeErrors_nil ((onCreateWidgetType_ok hval).1)
  cases hic : i.code with
  | none =>
    rw [hshape, hic] at hct
    simp [normTruthyCode, jsTruthy] at hct
  | some c =>
    by_cases hce : c.isEmpty
    · rw [hshape, hic] at hct
      simp only [normTruthyCode, hce, if_true] at hct
      simp [jsTruthy, hce] at hct
    · have hwc : wt.code = some (jsTrim (jsToUpper c)) := by
        rw [hshape, hic]
        simp [normTruthyCode, hce]
      have hcomm : jsTrim (jsToUpper c) = jsToUpper (jsTrim c) := jsTrim_jsToUpper c
      have hck : checkCodeFormat c = .ok () := by
        rw [hic] at hfmt
        simpa [jsTruthy, hce] using hfmt
      have hre := checkCodeFormat_ok_re hck
      refine ⟨c, rfl, by rw [hwc, hcomm], hre, ?_⟩
      have hfix : jsTrim (jsToUpper (jsTrim c)) = jsToUpper (jsTrim c) := by
        rw [jsTrim_jsToUpper, jsTrim_idem]
      rw [hwc] at hclen
      simp only [Option.getD_some] at hclen
      rw [hcomm, hfix, jsToUpper_length] at hclen
      exact hclen

/-- The shape of a `code` value as it is stored by a successful create:
non-empty, uppercase letters and underscores only, at most 50 code points. -/
def normalizedCode (s : Str) : Bool :=
  !s.isEmpty && s.all upperOrUnderscoreB && decide (s.length ≤ 50)

theorem normalizedCode_of_checks {c : Str}
    (hre : reLettersUnderscoreOnly (jsTrim c) = true)
    (hlen : (jsTrim c).length ≤ 50) :
    normalizedCode (jsToUpper (jsTrim c)) = true := by
  unfold reLettersUnderscoreOnly at hre
  rw [Bool.and_eq_true] at hre
  obtain ⟨hne, hall⟩ := hre
  unfold normalizedCode
  rw [Bool.and_eq_true, Bool.and_eq_true]
  refine ⟨⟨?_, ?_⟩, ?_⟩
  · rw [Bool.not_eq_true'] at hne ⊢
    rw [List.isEmpty_eq_false] at hne ⊢
    intro hcon
    exact hne (by simpa [jsToUpper] using hcon)
  · rw [List.all_eq_true] at hall ⊢
    intro x hx
    obtain ⟨y, hy, hxy⟩ := List.mem_map.mp hx
    rw [← hxy]
    exact letterOrUnderscore_toUpper (hall y hy)
  · rw [decide_eq_true_iff]
    rw [jsToUpper_length]
    exact hlen

/-- `trim` and `toUpperCase` fix any stored (normalized) code. -/
theorem normalizedCode_fixed {s : Str} (h : normalizedCode s = true) :
    jsTrim s = s ∧ jsToUpper s = s := by
  unfold normalizedCode at h
  rw [Bool.and_eq_true, Bool.and_eq_true] at h
  have hall := List.all_eq_true.mp h.1.2
  exact ⟨jsTrim_eq_self_of_upperOrUnderscore hall,
    jsToUpper_eq_self_of_upperOrUnderscore hall⟩

-- ### Concrete creation payloads from the specification's examples

/-- The §8 example payload with the pure-lowercase code `"button"`. -/
def buttonInput : WidgetTypeInput :=
  { code := some (str "button"), name := some (str "Button Widget") }

/-- The §8 example payload with the mixed-case code `"Mixed_Case"`. -/
def mixedCaseInput : WidgetTypeInput :=
  { code := some (str "Mixed_Case"), name := some (str "Mixed Case Widget") }

/-- C1 (counterexample): creating a WidgetType with code `"button"` does NOT
succeed — the `preCreate` hook rejects pure-lowercase codes
(WidgetTypeLib.ts lines 107-110), so nothing is stored. -/
theorem c1_counterexample_button_create_fails :
    (dbCreateWidgetType { widgetTypes := [], widgets := [] } buttonInput 1).isOk = false := by
  rfl

/-- C1 (amended): for every database state, creating a WidgetType whose code
is the lowercase string `"button"` throws the code-format validation error
("must contain only uppercase letters and underscores") and stores nothing. -/
theorem c1_amended_button_create_rejected (db : DB) (n : Nat) :
    dbCreateWidgetType db buttonInput n = .error codeFormatMsg := by
  unfold dbCreateWidgetType
  rw [show createWidgetTypePipeline buttonInput = .error codeFormatMsg from rfl]

/-- C8: for every database state, creating a WidgetType whose code is the
mixed-case string `"Mixed_Case"` throws the code-format validation error and
stores nothing. -/
theorem c8_mixed_case_create_rejected (db : DB) (n : Nat) :
    dbCreateWidgetType db mixedCaseInput n = .error codeFormatMsg := by
  unfold dbCreateWidgetType
  rw [show createWidgetTypePipeline mixedCaseInput = .error codeFormatMsg from rfl]

/-- C3: if the trimmed code of a WidgetType-creation payload contains any
character other than an ASCII letter or underscore, or is longer than 50
characters, the create operation throws and no WidgetType is stored. -/
theorem c3_create_rejects_invalid_or_overlong_code
    (db : DB) (input : WidgetTypeInput) (n : Nat) (c : Str)
    (hc : input.code = some c)
    (hbad : (∃ ch ∈ jsTrim c, letterOrUnderscoreB ch = false) ∨
      50 < (jsTrim c).length) :
    ∃ e, dbCreateWidgetType db input n = .error e := by
  have hne : c ≠ [] := by
    intro hnil
    subst hnil
    rcases hbad with ⟨ch, hmem, _⟩ | hlen
    · simp [jsTrim_nil] at hmem
    · simp [jsTrim_nil] at hlen
  suffices hpl : ∃ e, createWidgetTypePipeline input = .error e by
    obtain ⟨e, he⟩ := hpl
    refine ⟨e, ?_⟩
    unfold dbCreateWidgetType
    rw [he]
  rcases hbad with ⟨ch, hmem, hch⟩ | hlen
  · exact ⟨codeFormatMsg, createPipeline_error_of_preCreate
      (preCreate_error_of_checkFormat hc hne (checkCodeFormat_error_of_bad_char hmem hch))⟩
  · cases hpl : createWidgetTypePipeline input with
    | error e => exact ⟨e, rfl⟩
    | ok wt =>
      exfalso
      obtain ⟨c2, hc2, _, _, hlen2⟩ := createPipeline_ok_code hpl
      rw [hc] at hc2
      cases hc2
      omega

/-- Witness for C3 at the concrete payload `code = "INVALID-DASH"`. -/
theorem c3_witness :
    ∃ e, dbCreateWidgetType { widgetTypes := [], widgets := [] }
      { code := some (str "INVALID-DASH"), name := some (str "Test Widget Type") }
      1 = .error e :=
  c3_create_rejects_invalid_or_overlong_code
    { widgetTypes := [], widgets := [] }
    { code := some (str "INVALID-DASH"), name := some (str "Test Widget Type") }
    1 (str "INVALID-DASH") rfl
    (Or.inl ⟨45, by decide, by decide⟩)

-- ### The database invariant: unique, normalized codes (claim C4)

/-- The stored codes, in table order. -/
def codesOf (l : List WidgetTypeRec) : List Str := l.map (fun r => r.code)

/-- The stored primary keys, in table order. -/
def idsOf (l : List WidgetTypeRec) : List Nat := l.map (fun r => r.id)

/-- Well-formedness of the `widget_types` table: pairwise-distinct codes
(the `unique: true` constraint of seed.ts lines 233-241), pairwise-distinct
primary keys, and every stored code in the shape `preCreate` produces. -/
def dbWF (db : DB) : Prop :=
  (codesOf db.widgetTypes).Nodup ∧ (idsOf db.widgetTypes).Nodup ∧
  ∀ r ∈ db.widgetTypes, normalizedCode r.code = true

instance (db : DB) : Decidable (dbWF db) := by
  unfold dbWF
  infer_instance

theorem dbCreate_ok_inv {db : DB} {i : WidgetTypeInput} {n : Nat} {db' : DB}
    (h : dbCreateWidgetType db i n = .ok db') :
    ∃ wt, createWidgetTypePipeline i = .ok wt ∧
      db.widgetTypes.any (fun r => r.id == n) = false ∧
      db.widgetTypes.any (fun r => r.code == wt.code.getD []) = false ∧
      db' = { db with widgetTypes := db.widgetTypes ++
        [{ id := n, code := wt.code.getD [], name := wt.name.getD [],
           description := wt.description, isActive := wt.isActive.getD true }] } := by
  unfold dbCreateWidgetType at h
  cases hpl : createWidgetTypePipeline i with
  | error e =>
    rw [hpl] at h
    exact Except.noConfusion h
  | ok wt =>
    rw [hpl] at h
    dsimp only at h
    split at h
    · exact Except.noConfusion h
    · split at h
      · exact Except.noConfusion h
      · next hid hcode =>
        refine ⟨wt, rfl, ?_, ?_, ?_⟩
        · exact Bool.not_eq_true _ ▸ Bool.eq_false_iff.mpr hid
        · exact Bool.eq_false_iff.mpr hcode
        · have h2 := h
          cases h2
          rfl

theorem any_beq_false {α β : Type} [BEq β] [LawfulBEq β] {l : List α} {f : α → β} {x : β}
    (h : l.any (fun r => f r == x) = false) : ∀ r ∈ l, f r ≠ x := by
  intro r hr heq
  rw [List.any_eq_false] at h
  exact absurd (by simp [heq]) (h r hr)

/-- Creation preserves the table invariant. -/
theorem dbWF_create {db : DB} {i : WidgetTypeInput} {n : Nat} {db' : DB}
    (hwf : dbWF db) (h : dbCreateWidgetType db i n = .ok db') : dbWF db' := by
  obtain ⟨wt, hpl, hid, hcode, hdb⟩ := dbCreate_ok_inv h
  obtain ⟨hnodC, hnodI, hnorm⟩ := hwf
  obtain ⟨c, hic, hwtc, hre, hlen⟩ := createPipeline_ok_code hpl
  subst hdb
  refine ⟨?_, ?_, ?_⟩
  · simp only [codesOf, List.map_append, List.map_cons, List.map_nil]
    rw [List.nodup_append]
    refine ⟨hnodC, List.nodup_singleton _, ?_⟩
    rw [List.disjoint_singleton]
    intro hmem
    obtain ⟨r, hr, hrc⟩ := List.mem_map.mp hmem
    exact any_beq_false hcode r hr (by simpa using hrc)
  · simp only [idsOf, List.map_append, List.map_cons, List.map_nil]
    rw [List.nodup_append]
    refine ⟨hnodI, List.nodup_singleton _, ?_⟩
    rw [List.disjoint_singleton]
    intro hmem
    obtain ⟨r, hr, hrc⟩ := List.mem_map.mp hmem
    exact any_beq_false hid r hr (by simpa using hrc)
  · intro r hr
    rcases List.mem_append.mp hr with hold | hnew
    · exact hnorm r hold
    · have : r = { id := n, code := wt.code.getD [], name := wt.name.getD [],
                   description := wt.description,
                   isActive := wt.isActive.getD true } := by
        simpa using hnew
      rw [this]
      show normalizedCode (wt.code.getD []) = true
      rw [hwtc]
      exact normalizedCode_of_checks hre hlen

/-- Removal preserves the table invariant. -/
theorem dbWF_remove {db : DB} {k : Nat} {db' : DB}
    (hwf : dbWF db) (h : dbRemoveWidgetType db k = .ok db') : dbWF db' := by
  obtain ⟨hnodC, hnodI, hnorm⟩ := hwf
  unfold dbRemoveWidgetType at h
  cases hf : db.widgetTypes.find? (fun r => r.id == k) with
  | none =>
    rw [hf] at h
    exact Except.noConfusion h
  | some row =>
    rw [hf] at h
    dsimp only at h
    have hdb : db' = { db with
        widgetTypes := db.widgetTypes.filter (fun r => r.id != k) } := by
      cases h
      rfl
    subst hdb
    refine ⟨?_, ?_, ?_⟩
    · exact ((List.filter_sublist _).map _).nodup hnodC
    · exact ((List.filter_sublist _).map _).nodup hnodI
    · intro r hr
      exact hnorm r (List.mem_filter.mp hr).1

theorem jsTrim_upper_trim_fixed (c : Str) :
    jsTrim (jsToUpper (jsTrim c)) = jsToUpper (jsTrim c) := by
  rw [jsTrim_jsToUpper, jsTrim_idem]

theorem preUpdate_ok_shape {u u1 : WidgetTypeInput}
    (h : preUpdateWidgetType u = .ok u1) :
    (if jsTruthy u.code then checkCodeFormat (u.code.getD []) else Except.ok ()) = .ok () ∧
    u1 = { code := normTruthyCode u.code, name := normTruthyName u.name,
           description := u.description, isActive := u.isActive } := by
  unfold preUpdateWidgetType at h
  cases hfmt : (if jsTruthy u.code then checkCodeFormat (u.code.getD []) else Except.ok ()) with
  | error e =>
    rw [hfmt] at h
    exact Except.noConfusion h
  | ok v =>
    cases v
    rw [hfmt] at h
    have h2 : Except.ok (ε := String)
        ({ code := normTruthyCode u.code, name := normTruthyName u.name,
           description := u.description, isActive := u.isActive } : WidgetTypeInput)
        = .ok u1 := h
    cases h2
    exact ⟨rfl, rfl⟩

theorem onUpdate_ok_shape {u u2 : WidgetTypeInput}
    (h : onUpdateWidgetType u = .ok u2) :
    updateCodeErrors u.code = [] ∧ updateNameErrors u.name = [] ∧
    u2 = { u with code := normTruthyCode u.code, name := normTruthyName u.name } := by
  unfold onUpdateWidgetType at h
  split at h
  · next heq =>
    obtain ⟨h1, h2⟩ := List.append_eq_nil.mp heq
    have h3 : Except.ok (ε := String)
        ({ u with code := normTruthyCode u.code, name := normTruthyName u.name }
          : WidgetTypeInput) = .ok u2 := h
    cases h3
    exact ⟨h1, h2, rfl⟩
  · exact Except.noConfusion h

theorem updateCodeErrors_nil {o : Option Str} (h : updateCodeErrors o = []) :
    o = none ∨ ∃ c, o = some c ∧ c.isEmpty = false ∧
      (jsTrim c).isEmpty = false ∧ (jsTrim c).length ≤ 50 := by
  cases o with
  | none => exact Or.inl rfl
  | some c =>
    simp only [updateCodeErrors] at h
    split at h
    · exact List.noConfusion h
    · next hreq =>
      split at h
      · exact List.noConfusion h
      · next hlen =>
        simp only [Bool.or_eq_true, not_or, Bool.not_eq_true] at hreq
        exact Or.inr ⟨c, rfl, hreq.1, hreq.2, by omega⟩

theorem updateNameErrors_nil {o : Option Str} (h : updateNameErrors o = []) :
    o = none ∨ ∃ nm, o = some nm ∧ nm.isEmpty = false ∧
      (jsTrim nm).isEmpty = false ∧ nm.length ≤ 255 := by
  cases o with
  | none => exact Or.inl rfl
  | some nm =>
    simp only [updateNameErrors] at h
    split at h
    · exact List.noConfusion h
    · next hreq =>
      split at h
      · exact List.noConfusion h
      · next hlen =>
        simp only [Bool.or_eq_true, not_or, Bool.not_eq_true] at hreq
        exact Or.inr ⟨nm, rfl, hreq.1, hreq.2, by omega⟩

theorem updatePipeline_ok_split {u u2 : WidgetTypeInput}
    (h : updateWidgetTypePipeline u = .ok u2) :
    ∃ u1, preUpdateWidgetType u = .ok u1 ∧ onUpdateWidgetType u1 = .ok u2 := by
  unfold updateWidgetTypePipeline at h
  cases hpre : preUpdateWidgetType u with
  | error e =>
    rw [hpre] at h
    exact Except.noConfusion h
  | ok u1 =>
    rw [hpre] at h
    dsimp only at h
    exact ⟨u1, rfl, h⟩

/-- A successful update pipeline either leaves the code untouched (field not
present) or stores it uppercased and trimmed, having passed the same format
and length checks as creation. -/
theorem updatePipeline_ok_code {u u2 : WidgetTypeInput}
    (h : updateWidgetTypePipeline u = .ok u2) :
    (u.code = none ∧ u2.code = none) ∨
    ∃ c, u.code = some c ∧ u2.code = some (jsToUpper (jsTrim c)) ∧
      reLettersUnderscoreOnly (jsTrim c) = true ∧ (jsTrim c).length ≤ 50 := by
  obtain ⟨u1, hpre, hval⟩ := updatePipeline_ok_split h
  obtain ⟨hfmt, hu1⟩ := preUpdate_ok_shape hpre
  obtain ⟨hce, hne, hu2⟩ := onUpdate_ok_shape hval
  cases huc : u.code with
  | none =>
    refine Or.inl ⟨rfl, ?_⟩
    rw [hu2, hu1]
    simp [normTruthyCode, huc]
  | some c =>
    by_cases hcemp : c.isEmpty
    · exfalso
      rw [hu1, huc] at hce
      have hcnil : c = [] := List.isEmpty_iff.mp hcemp
      subst hcnil
      simp [normTruthyCode, updateCodeErrors, jsTrim_nil] at hce
    · have hck : checkCodeFormat c = .ok () := by
        rw [huc] at hfmt
        simpa [jsTruthy, hcemp] using hfmt
      have hre := checkCodeFormat_ok_re hck
      have hu1c : u1.code = some (jsTrim (jsToUpper c)) := by
        rw [hu1]
        simp [normTruthyCode, huc, hcemp]
      have hCnotempty : (jsTrim (jsToUpper c)).isEmpty = false := by
        rw [jsTrim_jsToUpper]
        rw [List.isEmpty_eq_false]
        intro hcon
        have hlen0 := congrArg List.length hcon
        rw [jsToUpper_length] at hlen0
        have : jsTrim c = [] := List.length_eq_zero.mp (by simpa using hlen0)
        rw [reLettersUnderscoreOnly, this] at hre
        simp at hre
      have hlen50 : (jsTrim c).length ≤ 50 := by
        rw [hu1c] at hce
        rcases updateCodeErrors_nil hce with hnone | ⟨c2, hc2, _, _, hlen2⟩
        · exact Option.noConfusion hnone
        · have hc2' : c2 = jsTrim (jsToUpper c) := by
            injection hc2 with h2
            exact h2.symm
          subst hc2'
          rw [jsTrim_idem, jsTrim_jsToUpper, jsToUpper_length] at hlen2
          exact hlen2
      refine Or.inr ⟨c, rfl, ?_, hre, hlen50⟩
      rw [hu2]
      show normTruthyCode u1.code = some (jsToUpper (jsTrim c))
      rw [hu1c]
      simp only [normTruthyCode]
      rw [if_neg (by simp [hCnotempty])]
      have hcu : jsToUpper (jsTrim (jsToUpper c)) = jsToUpper (jsTrim c) := by
        rw [jsTrim_jsToUpper, jsToUpper_idem]
      rw [hcu, jsTrim_upper_trim_fixed]

theorem dbUpdate_ok_inv {db : DB} {k : Nat} {u : WidgetTypeInput} {db' : DB}
    (h : dbUpdateWidgetType db k u = .ok db') :
    ∃ row u2, db.widgetTypes.find? (fun r => r.id == k) = some row ∧
      updateWidgetTypePipeline u = .ok u2 ∧
      db.widgetTypes.any
        (fun r => r.id != k && r.code == u2.code.getD row.code) = false ∧
      db' = { db with widgetTypes := db.widgetTypes.map (fun r =>
        if r.id == k then
          { id := row.id, code := u2.code.getD row.code, name := u2.name.getD row.name,
            description := match u2.description with
              | some d => some d
              | none => row.description,
            isActive := u2.isActive.getD row.isActive }
        else r) } := by
  unfold dbUpdateWidgetType at h
  cases hf : db.widgetTypes.find? (fun r => r.id == k) with
  | none =>
    rw [hf] at h
    exact Except.noConfusion h
  | some row =>
    rw [hf] at h
    dsimp only at h
    cases hpl : updateWidgetTypePipeline u with
    | error e =>
      rw [hpl] at h
      exact Except.noConfusion h
    | ok u2 =>
      rw [hpl] at h
      dsimp only at h
      split at h
      · exact Except.noConfusion h
      · next hguard =>
        refine ⟨row, u2, rfl, rfl, Bool.eq_false_iff.mpr hguard, ?_⟩
        cases h
        rfl

/-- Replacing the row with primary key `k` by a row whose code collides with
no other row preserves distinctness of the codes. -/
theorem nodup_codes_map_replace (k : Nat) (row2 : WidgetTypeRec) :
    ∀ (l : List WidgetTypeRec), (codesOf l).Nodup → (idsOf l).Nodup →
    (∀ r ∈ l, r.id ≠ k → r.code ≠ row2.code) →
    (codesOf (l.map (fun r => if r.id == k then row2 else r))).Nodup := by
  intro l
  induction l with
  | nil => intro _ _ _; simp [codesOf]
  | cons hd t ih =>
    intro hnodC hnodI hsafe
    simp only [codesOf, List.map_cons, List.nodup_cons] at hnodC
    simp only [idsOf, List.map_cons, List.nodup_cons] at hnodI
    by_cases hid : hd.id = k
    · have hghd : (if hd.id == k then row2 else hd) = row2 := by simp [hid]
      have hmt : t.map (fun r => if r.id == k then row2 else r) = t := by
        have h1 : ∀ r ∈ t, (if r.id == k then row2 else r) = id r := by
          intro r hr
          have hrk : r.id ≠ k := by
            intro hrkeq
            exact hnodI.1 (by
              rw [← hid] at hrkeq
              exact List.mem_map.mpr ⟨r, hr, hrkeq⟩)
          simp [hrk]
        rw [List.map_congr_left h1, List.map_id]
      simp only [List.map_cons, hghd, hmt, codesOf, List.nodup_cons]
      constructor
      · intro hmem
        obtain ⟨r, hr, hrc⟩ := List.mem_map.mp hmem
        have hrk : r.id ≠ k := by
          intro hrkeq
          exact hnodI.1 (by
            rw [← hid] at hrkeq
            exact List.mem_map.mpr ⟨r, hr, hrkeq⟩)
        exact hsafe r (List.mem_cons_of_mem hd hr) hrk hrc
      · exact hnodC.2
    · have hghd : (if hd.id == k then row2 else hd) = hd := by simp [hid]
      simp only [List.map_cons, hghd, codesOf, List.nodup_cons]
      constructor
      · intro hmem
        obtain ⟨r2, hr2, hrc⟩ := List.mem_map.mp hmem
        obtain ⟨r, hr, hgr⟩ := List.mem_map.mp hr2
        by_cases hrk : r.id = k
        · have : r2 = row2 := by rw [← hgr]; simp [hrk]
          rw [this] at hrc
          exact hsafe hd (List.mem_cons_self hd t) hid hrc.symm
        · have : r2 = r := by rw [← hgr]; simp [hrk]
          rw [this] at hrc
          exact hnodC.1 (List.mem_map.mpr ⟨r, hr, hrc⟩)
      · exact ih hnodC.2 hnodI.2
          (fun r hr => hsafe r (List.mem_cons_of_mem hd hr))

/-- Updating preserves the table invariant. -/
theorem dbWF_update {db : DB} {k : Nat} {u : WidgetTypeInput} {db' : DB}
    (hwf : dbWF db) (h : dbUpdateWidgetType db k u = .ok db') : dbWF db' := by
  obtain ⟨hnodC, hnodI, hnorm⟩ := hwf
  obtain ⟨row, u2, hf, hpl, hguard, hdb⟩ := dbUpdate_ok_inv h
  have hrowk : row.id = k := by
    have := List.find?_some hf
    simpa using this
  have hrowmem : row ∈ db.widgetTypes := List.mem_of_find?_eq_some hf
  set row2 : WidgetTypeRec :=
    { id := row.id, code := u2.code.getD row.code, name := u2.name.getD row.name,
      description := match u2.description with
        | some d => some d
        | none => row.description,
      isActive := u2.isActive.getD row.isActive } with hrow2def
  have hsafe : ∀ r ∈ db.widgetTypes, r.id ≠ k → r.code ≠ row2.code := by
    intro r hr hrk hrc
    rw [List.any_eq_false] at hguard
    have := hguard r hr
    simp only [Bool.and_eq_true, bne_iff_ne, beq_iff_eq, not_and] at this
    exact this hrk (by simpa [hrow2def] using hrc)
  have hids : ∀ r ∈ db.widgetTypes,
      ((fun r => if r.id == k then row2 else r) r).id = r.id := by
    intro r hr
    by_cases hrk : r.id = k
    · simp [hrk, hrow2def, hrowk]
    · simp [hrk]
  subst hdb
  refine ⟨?_, ?_, ?_⟩
  · exact nodup_codes_map_replace k row2 db.widgetTypes hnodC hnodI hsafe
  · show (idsOf (db.widgetTypes.map _)).Nodup
    unfold idsOf
    rw [List.map_map]
    have heq : db.widgetTypes.map
        ((fun r => r.id) ∘ (fun r => if r.id == k then row2 else r))
        = db.widgetTypes.map (fun r => r.id) :=
      List.map_congr_left (fun r hr => hids r hr)
    rw [heq]
    exact hnodI
  · intro r2 hr2
    obtain ⟨r, hr, hgr⟩ := List.mem_map.mp hr2
    by_cases hrk : r.id = k
    · have : r2 = row2 := by rw [← hgr]; simp [hrk]
      rw [this]
      show normalizedCode (u2.code.getD row.code) = true
      rcases updatePipeline_ok_code hpl with ⟨_, hu2c⟩ | ⟨c, _, hu2c, hre, hlen⟩
      · rw [hu2c]
        exact hnorm row hrowmem
      · rw [hu2c]
        exact normalizedCode_of_checks hre hlen
    · have : r2 = r := by rw [← hgr]; simp [hrk]
      rw [this]
      exact hnorm r hr

/-- Creating a WidgetType whose submitted code equals a stored (normalized)
code always fails: either a validation hook throws first, or the unique
constraint on `code` rejects the insert. -/
theorem dbCreate_duplicate_code_fails {db : DB} {i : WidgetTypeInput} {n : Nat}
    {r : WidgetTypeRec} (hwf : dbWF db) (hr : r ∈ db.widgetTypes)
    (hc : i.code = some r.code) :
    ∃ e, dbCreateWidgetType db i n = .error e := by
  cases hpl : createWidgetTypePipeline i with
  | error e =>
    refine ⟨e, ?_⟩
    unfold dbCreateWidgetType
    rw [hpl]
  | ok wt =>
    obtain ⟨c, hic, hwtc, _, _⟩ := createPipeline_ok_code hpl
    rw [hc] at hic
    have hcr : c = r.code := by
      injection hic with h2
      exact h2.symm
    subst hcr
    obtain ⟨htrim, hupper⟩ := normalizedCode_fixed (hwf.2.2 r hr)
    have hwtc2 : wt.code = some r.code := by
      rw [hwtc, htrim, hupper]
    by_cases hidany : db.widgetTypes.any (fun x => x.id == n) = true
    · refine ⟨"Validation error: primary key must be unique", ?_⟩
      unfold dbCreateWidgetType
      rw [hpl]
      dsimp only
      rw [if_pos hidany]
    · refine ⟨"Validation error: code must be unique", ?_⟩
      unfold dbCreateWidgetType
      rw [hpl]
      dsimp only
      rw [if_neg hidany, if_pos ?hcodeany]
      case hcodeany =>
        rw [List.any_eq_true]
        exact ⟨r, hr, by rw [hwtc2]; simp⟩

/-- C4: in every well-formed database state, no two WidgetType records share a
code; create, update and remove all preserve this uniqueness (together with
normalization of stored codes), and creating a WidgetType whose code equals an
existing record's code throws, so that (the operation returning an error)
the stored records are left unchanged. -/
theorem c4_code_uniqueness_invariant (db : DB) (hwf : dbWF db) :
    (∀ i n db', dbCreateWidgetType db i n = .ok db' → dbWF db') ∧
    (∀ k u db', dbUpdateWidgetType db k u = .ok db' → dbWF db') ∧
    (∀ k db', dbRemoveWidgetType db k = .ok db' → dbWF db') ∧
    (∀ i n r, r ∈ db.widgetTypes → i.code = some r.code →
      ∃ e, dbCreateWidgetType db i n = .error e) :=
  ⟨fun _ _ _ h => dbWF_create hwf h,
   fun _ _ _ h => dbWF_update hwf h,
   fun _ _ h => dbWF_remove hwf h,
   fun _ _ _ hr hc => dbCreate_duplicate_code_fails hwf hr hc⟩

/-- A concrete well-formed one-row database. -/
def dbOneButton : DB :=
  { widgetTypes := [{ id := 1, code := str "BUTTON", name := str "Button" }],
    widgets := [] }

/-- Witness for C4: the concrete database is well formed, a successful create
yields a well-formed database again, and creating a duplicate of the stored
code `"BUTTON"` fails. -/
theorem c4_witness :
    dbWF dbOneButton ∧
    (∃ e, dbCreateWidgetType dbOneButton
      { code := some (str "BUTTON"), name := some (str "Again") } 2 = .error e) ∧
    dbWF { widgetTypes :=
             [{ id := 1, code := str "BUTTON", name := str "Button" },
              { id := 2, code := str "TEXT_INPUT", name := str "Text Input",
                description := none, isActive := true }],
           widgets := [] } := by
  refine ⟨by decide, ?_, ?_⟩
  · exact (c4_code_uniqueness_invariant dbOneButton (by decide)).2.2.2
      { code := some (str "BUTTON"), name := some (str "Again") } 2
      { id := 1, code := str "BUTTON", name := str "Button" }
      (by decide) rfl
  · exact (c4_code_uniqueness_invariant dbOneButton (by decide)).1
      { code := some (str "TEXT_INPUT"), name := some (str "Text Input") } 2
      { widgetTypes :=
          [{ id := 1, code := str "BUTTON", name := str "Button" },
           { id := 2, code := str "TEXT_INPUT", name := str "Text Input",
             description := none, isActive := true }],
        widgets := [] }
      (by rfl)

-- ### C5: update validation matches create validation, field by field

theorem preCreate_ok_of_fmt {i : WidgetTypeInput}
    (hfmt : (if jsTruthy i.code then checkCodeFormat (i.code.getD [])
             else Except.ok ()) = .ok ()) :
    preCreateWidgetType i = .ok
      { code := normTruthyCode i.code, name := normTruthyName i.name,
        description := i.description, isActive := some (i.isActive.getD true) } := by
  unfold preCreateWidgetType
  rw [hfmt]

theorem preUpdate_ok_of_fmt {u : WidgetTypeInput}
    (hfmt : (if jsTruthy u.code then checkCodeFormat (u.code.getD [])
             else Except.ok ()) = .ok ()) :
    preUpdateWidgetType u = .ok
      { code := normTruthyCode u.code, name := normTruthyName u.name,
        description := u.description, isActive := u.isActive } := by
  unfold preUpdateWidgetType
  rw [hfmt]

theorem createPipeline_eq_of_preOk {i wt0 : WidgetTypeInput}
    (hpre : preCreateWidgetType i = .ok wt0) :
    createWidgetTypePipeline i =
      match onCreateWidgetType wt0 with
      | .error e => .error e
      | .ok _ => .ok wt0 := by
  unfold createWidgetTypePipeline
  rw [hpre]

theorem updatePipeline_eq_of_preOk {u u1 : WidgetTypeInput}
    (hpre : preUpdateWidgetType u = .ok u1) :
    updateWidgetTypePipeline u = onUpdateWidgetType u1 := by
  unfold updateWidgetTypePipeline
  rw [hpre]

theorem preUpdate_error_of_checkFormat {u : WidgetTypeInput} {c : Str} {e : String}
    (hc : u.code = some c) (hne : c ≠ [])
    (hfmt : checkCodeFormat c = .error e) :
    preUpdateWidgetType u = .error e := by
  unfold preUpdateWidgetType
  rw [hc]
  have ht : jsTruthy (some c) = true := by
    simp [jsTruthy, List.isEmpty_iff, hne]
  rw [ht]
  simp only [if_true, Option.getD_some]
  rw [hfmt]

theorem updatePipeline_error_of_preUpdate {u : WidgetTypeInput} {e : String}
    (h : preUpdateWidgetType u = .error e) :
    updateWidgetTypePipeline u = .error e := by
  unfold updateWidgetTypePipeline
  rw [h]

/-- The `onCreate` and `onUpdate` validators collect identical errors for a
field that is present in the payload (code). -/
theorem createCodeErrors_eq_updateCodeErrors (c : Str) :
    createCodeErrors (some c) = updateCodeErrors (some c) := by
  unfold createCodeErrors updateCodeErrors
  simp [jsTruthy, Bool.not_not]

/-- The `onCreate` and `onUpdate` validators collect identical errors for a
field that is present in the payload (name). -/
theorem createNameErrors_eq_updateNameErrors (nm : Str) :
    createNameErrors (some nm) = updateNameErrors (some nm) := by
  unfold createNameErrors updateNameErrors
  simp [jsTruthy, Bool.not_not]

/-- The fixed valid name used to probe code validation in isolation. -/
def validProbeName : Str := str "Valid Name"

/-- The fixed valid code used to probe name validation in isolation. -/
def validProbeCode : Str := str "VALID"

/-- A creation payload carrying the probed code and a fixed valid name. -/
def codeProbeCreate (c : Str) : WidgetTypeInput :=
  { code := some c, name := some validProbeName }

/-- An update payload carrying only the probed code. -/
def codeProbeUpdate (c : Str) : WidgetTypeInput := { code := some c }

/-- A creation payload carrying a fixed valid code and the probed name. -/
def nameProbeCreate (nm : Str) : WidgetTypeInput :=
  { code := some validProbeCode, name := some nm }

/-- An update payload carrying only the probed name. -/
def nameProbeUpdate (nm : Str) : WidgetTypeInput := { name := some nm }

theorem jsTrim_nonempty_of_re {c : Str}
    (hre : reLettersUnderscoreOnly (jsTrim c) = true) : jsTrim c ≠ [] := by
  unfold reLettersUnderscoreOnly at hre
  rw [Bool.and_eq_true] at hre
  have := hre.1
  rw [Bool.not_eq_true', List.isEmpty_eq_false] at this
  exact this

theorem createCodeErrors_of_normalized {c : Str}
    (hfmt : checkCodeFormat c = .ok ()) :
    createCodeErrors (some (jsTrim (jsToUpper c))) =
      if (jsTrim c).length > 50
      then ["Widget type code must be 50 characters or less"] else [] := by
  have hre := checkCodeFormat_ok_re hfmt
  have hjne := jsTrim_nonempty_of_re hre
  have hCne : jsTrim (jsToUpper c) ≠ [] := by
    rw [jsTrim_jsToUpper]
    intro hcon
    have := congrArg List.length hcon
    rw [jsToUpper_length] at this
    exact hjne (List.length_eq_zero.mp (by simpa using this))
  have hCtrim : jsTrim (jsTrim (jsToUpper c)) = jsTrim (jsToUpper c) := jsTrim_idem _
  have hClen : (jsTrim (jsToUpper c)).length = (jsTrim c).length := by
    rw [jsTrim_jsToUpper, jsToUpper_length]
  unfold createCodeErrors
  rw [if_neg ?hreq]
  case hreq =>
    simp only [Option.getD_some, hCtrim, Bool.or_eq_true, Bool.not_eq_true']
    rw [not_or]
    constructor
    · simp [jsTruthy, List.isEmpty_eq_false, hCne]
    · simp [List.isEmpty_eq_false, hCne]
  simp only [Option.getD_some, hCtrim, hClen]

theorem createPipeline_codeProbe (c : Str) (hcnil : c ≠ [])
    (hfmt : checkCodeFormat c = .ok ()) :
    createWidgetTypePipeline (codeProbeCreate c) =
      if (jsTrim c).length > 50
      then .error "Widget type code must be 50 characters or less"
      else .ok { code := some (jsTrim (jsToUpper c)), name := some validProbeName,
                 description := none, isActive := some true } := by
  have hce : c.isEmpty = false := List.isEmpty_eq_false.mpr hcnil
  have htruthy : jsTruthy (some c) = true := by simp [jsTruthy, hce]
  have hfmt' : (if jsTruthy (codeProbeCreate c).code
      then checkCodeFormat ((codeProbeCreate c).code.getD [])
      else Except.ok ()) = .ok () := by
    show (if jsTruthy (some c) then checkCodeFormat ((some c).getD [])
      else Except.ok ()) = .ok ()
    rw [if_pos htruthy]
    simpa using hfmt
  have hpre2 : preCreateWidgetType (codeProbeCreate c) = .ok
      { code := some (jsTrim (jsToUpper c)), name := some validProbeName,
        description := none, isActive := some true } := by
    rw [preCreate_ok_of_fmt hfmt']
    have h1 : normTruthyCode (codeProbeCreate c).code
        = some (jsTrim (jsToUpper c)) := by
      show normTruthyCode (some c) = _
      simp [normTruthyCode, hce]
    have h2 : normTruthyName (codeProbeCreate c).name = some validProbeName := by
      show normTruthyName (some validProbeName) = _
      decide
    rw [h1, h2]
    rfl
  rw [createPipeline_eq_of_preOk hpre2]
  have hval : onCreateWidgetType
      { code := some (jsTrim (jsToUpper c)), name := some validProbeName,
        description := none, isActive := some true }
      = (if (jsTrim c).length > 50
         then .error "Widget type code must be 50 characters or less"
         else .ok ()) := by
    unfold onCreateWidgetType
    have hname : createNameErrors (some validProbeName) = [] := by decide
    show (match createCodeErrors (some (jsTrim (jsToUpper c))) ++
        createNameErrors (some validProbeName) with
      | [] => Except.ok ()
      | errs => Except.error (String.intercalate "; " errs)) = _
    rw [createCodeErrors_of_normalized hfmt, hname]
    by_cases hl : (jsTrim c).length > 50
    · rw [if_pos hl, if_pos hl]
      rfl
    · rw [if_neg hl, if_neg hl]
      rfl
  rw [hval]
  by_cases hl : (jsTrim c).length > 50
  · rw [if_pos hl, if_pos hl]
  · rw [if_neg hl, if_neg hl]

theorem updatePipeline_codeProbe (c : Str) (hcnil : c ≠ [])
    (hfmt : checkCodeFormat c = .ok ()) :
    updateWidgetTypePipeline (codeProbeUpdate c) =
      if (jsTrim c).length > 50
      then .error "Widget type code must be 50 characters or less"
      else .ok { code := some (jsTrim (jsToUpper c)), name := none,
                 description := none, isActive := none } := by
  have hce : c.isEmpty = false := List.isEmpty_eq_false.mpr hcnil
  have htruthy : jsTruthy (some c) = true := by simp [jsTruthy, hce]
  have hfmt' : (if jsTruthy (codeProbeUpdate c).code
      then checkCodeFormat ((codeProbeUpdate c).code.getD [])
      else Except.ok ()) = .ok () := by
    show (if jsTruthy (some c) then checkCodeFormat ((some c).getD [])
      else Except.ok ()) = .ok ()
    rw [if_pos htruthy]
    simpa using hfmt
  have hpre2 : preUpdateWidgetType (codeProbeUpdate c) = .ok
      { code := some (jsTrim (jsToUpper c)), name := none,
        description := none, isActive := none } := by
    rw [preUpdate_ok_of_fmt hfmt']
    have h1 : normTruthyCode (codeProbeUpdate c).code
        = some (jsTrim (jsToUpper c)) := by
      show normTruthyCode (some c) = _
      simp [normTruthyCode, hce]
    rw [h1]
    rfl
  rw [updatePipeline_eq_of_preOk hpre2]
  have hre := checkCodeFormat_ok_re hfmt
  have hjne := jsTrim_nonempty_of_re hre
  have hCne : jsTrim (jsToUpper c) ≠ [] := by
    rw [jsTrim_jsToUpper]
    intro hcon
    have := congrArg List.length hcon
    rw [jsToUpper_length] at this
    exact hjne (List.length_eq_zero.mp (by simpa using this))
  have hCfix : normTruthyCode (some (jsTrim (jsToUpper c)))
      = some (jsTrim (jsToUpper c)) := by
    show (if (jsTrim (jsToUpper c)).isEmpty
        then some (jsTrim (jsToUpper c))
        else some (jsTrim (jsToUpper (jsTrim (jsToUpper c)))))
      = some (jsTrim (jsToUpper c))
    rw [if_neg (by simp [List.isEmpty_eq_false, hCne])]
    have hup : jsToUpper (jsTrim (jsToUpper c)) = jsTrim (jsToUpper c) := by
      rw [jsTrim_jsToUpper, jsToUpper_idem, ← jsTrim_jsToUpper]
    rw [hup, jsTrim_idem]
  unfold onUpdateWidgetType
  show (match updateCodeErrors (some (jsTrim (jsToUpper c))) ++
      updateNameErrors none with
    | [] => Except.ok
        ({ code := normTruthyCode (some (jsTrim (jsToUpper c))),
           name := normTruthyName none, description := none,
           isActive := none } : WidgetTypeInput)
    | errs => Except.error (String.intercalate "; " errs)) = _
  rw [← createCodeErrors_eq_updateCodeErrors,
    createCodeErrors_of_normalized hfmt]
  by_cases hl : (jsTrim c).length > 50
  · rw [if_pos hl, if_pos hl]
    rfl
  · rw [if_neg hl, if_neg hl]
    rw [hCfix]
    rfl

theorem createNameErrors_of_trimmed {nm : Str} (htne : jsTrim nm ≠ []) :
    createNameErrors (some (jsTrim nm)) =
      if (jsTrim nm).length > 255
      then ["Widget type name must be 255 characters or less"] else [] := by
  unfold createNameErrors
  rw [if_neg ?hreq]
  case hreq =>
    simp only [Option.getD_some, jsTrim_idem, Bool.or_eq_true, Bool.not_eq_true']
    rw [not_or]
    constructor
    · simp [jsTruthy, List.isEmpty_eq_false, htne]
    · simp [List.isEmpty_eq_false, htne]
  simp only [Option.getD_some]

theorem createPipeline_nameProbe (nm : Str) (htne : jsTrim nm ≠ []) :
    createWidgetTypePipeline (nameProbeCreate nm) =
      if (jsTrim nm).length > 255
      then .error "Widget type name must be 255 characters or less"
      else .ok { code := some validProbeCode, name := some (jsTrim nm),
                 description := none, isActive := some true } := by
  have hnm : nm ≠ [] := by
    intro hnil
    exact htne (by rw [hnil]; rfl)
  have hnme : nm.isEmpty = false := List.isEmpty_eq_false.mpr hnm
  have hfmt' : (if jsTruthy (nameProbeCreate nm).code
      then checkCodeFormat ((nameProbeCreate nm).code.getD [])
      else Except.ok ()) = .ok () := by
    show (if jsTruthy (some validProbeCode)
      then checkCodeFormat ((some validProbeCode).getD [])
      else Except.ok ()) = .ok ()
    decide
  have hpre2 : preCreateWidgetType (nameProbeCreate nm) = .ok
      { code := some validProbeCode, name := some (jsTrim nm),
        description := none, isActive := some true } := by
    rw [preCreate_ok_of_fmt hfmt']
    have h1 : normTruthyCode (nameProbeCreate nm).code = some validProbeCode := by
      show normTruthyCode (some validProbeCode) = some validProbeCode
      decide
    have h2 : normTruthyName (nameProbeCreate nm).name = some (jsTrim nm) := by
      show normTruthyName (some nm) = _
      simp [normTruthyName, hnme]
    rw [h1, h2]
    rfl
  rw [createPipeline_eq_of_preOk hpre2]
  have hcode : createCodeErrors (some validProbeCode) = [] := by decide
  have hval : onCreateWidgetType
      { code := some validProbeCode, name := some (jsTrim nm),
        description := none, isActive := some true }
      = (if (jsTrim nm).length > 255
         then .error "Widget type name must be 255 characters or less"
         else .ok ()) := by
    unfold onCreateWidgetType
    show (match createCodeErrors (some validProbeCode) ++
        createNameErrors (some (jsTrim nm)) with
      | [] => Except.ok ()
      | errs => Except.error (String.intercalate "; " errs)) = _
    rw [hcode, createNameErrors_of_trimmed htne]
    by_cases hl : (jsTrim nm).length > 255
    · rw [if_pos hl, if_pos hl]
      rfl
    · rw [if_neg hl, if_neg hl]
      rfl
  rw [hval]
  by_cases hl : (jsTrim nm).length > 255
  · rw [if_pos hl, if_pos hl]
  · rw [if_neg hl, if_neg hl]

theorem updatePipeline_nameProbe (nm : Str) (htne : jsTrim nm ≠ []) :
    updateWidgetTypePipeline (nameProbeUpdate nm) =
      if (jsTrim nm).length > 255
      then .error "Widget type name must be 255 characters or less"
      else .ok { code := none, name := some (jsTrim nm),
                 description := none, isActive := none } := by
  have hnm : nm ≠ [] := by
    intro hnil
    exact htne (by rw [hnil]; rfl)
  have hnme : nm.isEmpty = false := List.isEmpty_eq_false.mpr hnm
  have hfmt' : (if jsTruthy (nameProbeUpdate nm).code
      then checkCodeFormat ((nameProbeUpdate nm).code.getD [])
      else Except.ok ()) = .ok () := by
    show (if jsTruthy none
      then checkCodeFormat ((Option.getD none [] : Str))
      else Except.ok ()) = .ok ()
    rfl
  have hpre2 : preUpdateWidgetType (nameProbeUpdate nm) = .ok
      { code := none, name := some (jsTrim nm),
        description := none, isActive := none } := by
    rw [preUpdate_ok_of_fmt hfmt']
    have h2 : normTruthyName (nameProbeUpdate nm).name = some (jsTrim nm) := by
      show normTruthyName (some nm) = _
      simp [normTruthyName, hnme]
    rw [h2]
    rfl
  rw [updatePipeline_eq_of_preOk hpre2]
  have htfix : normTruthyName (some (jsTrim nm)) = some (jsTrim nm) := by
    show (if (jsTrim nm).isEmpty then some (jsTrim nm)
        else some (jsTrim (jsTrim nm))) = some (jsTrim nm)
    rw [if_neg (by simp [List.isEmpty_eq_false, htne])]
    rw [jsTrim_idem]
  unfold onUpdateWidgetType
  show (match updateCodeErrors none ++ updateNameErrors (some (jsTrim nm)) with
    | [] => Except.ok
        ({ code := normTruthyCode none, name := normTruthyName (some (jsTrim nm)),
           description := none, isActive := none } : WidgetTypeInput)
    | errs => Except.error (String.intercalate "; " errs)) = _
  rw [show updateCodeErrors none = [] from rfl,
    ← createNameErrors_eq_updateNameErrors, createNameErrors_of_trimmed htne]
  by_cases hl : (jsTrim nm).length > 255
  · rw [if_pos hl, if_pos hl]
    rfl
  · rw [if_neg hl, if_neg hl]
    rw [htfix]
    rfl

theorem createPipeline_nameProbe_required {nm : Str} (htne : jsTrim nm = []) :
    createWidgetTypePipeline (nameProbeCreate nm)
      = .error "Widget type name is required" := by
  have hfmt' : (if jsTruthy (nameProbeCreate nm).code
      then checkCodeFormat ((nameProbeCreate nm).code.getD [])
      else Except.ok ()) = .ok () := by
    show (if jsTruthy (some validProbeCode)
      then checkCodeFormat ((some validProbeCode).getD [])
      else Except.ok ()) = .ok ()
    decide
  have hnn : normTruthyName (some nm) = some [] := by
    show (if nm.isEmpty then some nm else some (jsTrim nm)) = some []
    by_cases hnme : nm.isEmpty
    · rw [if_pos hnme]
      rw [List.isEmpty_iff.mp hnme]
    · rw [if_neg hnme, htne]
  have hpre2 : preCreateWidgetType (nameProbeCreate nm) = .ok
      { code := some validProbeCode, name := some [],
        description := none, isActive := some true } := by
    rw [preCreate_ok_of_fmt hfmt']
    have h1 : normTruthyCode (nameProbeCreate nm).code = some validProbeCode := by
      show normTruthyCode (some validProbeCode) = some validProbeCode
      decide
    rw [h1]
    show Except.ok
        ({ code := some validProbeCode, name := normTruthyName (some nm),
           description := none, isActive := some true } : WidgetTypeInput) = _
    rw [hnn]
  rw [createPipeline_eq_of_preOk hpre2]
  rfl

theorem updatePipeline_nameProbe_required {nm : Str} (htne : jsTrim nm = []) :
    updateWidgetTypePipeline (nameProbeUpdate nm)
      = .error "Widget type name is required" := by
  have hfmt' : (if jsTruthy (nameProbeUpdate nm).code
      then checkCodeFormat ((nameProbeUpdate nm).code.getD [])
      else Except.ok ()) = .ok () := by
    show (if jsTruthy none
      then checkCodeFormat ((Option.getD none [] : Str))
      else Except.ok ()) = .ok ()
    rfl
  have hnn : normTruthyName (some nm) = some [] := by
    show (if nm.isEmpty then some nm else some (jsTrim nm)) = some []
    by_cases hnme : nm.isEmpty
    · rw [if_pos hnme]
      rw [List.isEmpty_iff.mp hnme]
    · rw [if_neg hnme, htne]
  have hpre2 : preUpdateWidgetType (nameProbeUpdate nm) = .ok
      { code := none, name := some [], description := none, isActive := none } := by
    rw [preUpdate_ok_of_fmt hfmt']
    show Except.ok
        ({ code := normTruthyCode none, name := normTruthyName (some nm),
           description := none, isActive := none } : WidgetTypeInput) = _
    rw [hnn]
    rfl
  rw [updatePipeline_eq_of_preOk hpre2]
  rfl

/-- C5: WidgetType update applies the same validation as create, field by
field. For every code value, updating throws exactly when creating with that
code (and a fixed valid name) throws; for every name value, updating throws
exactly when creating with that name (and a fixed valid code) throws; the
accepted values are normalized identically (code uppercased and trimmed,
name trimmed). -/
theorem c5_update_validation_matches_create (c nm : Str) :
    ((createWidgetTypePipeline (codeProbeCreate c)).isOk
      = (updateWidgetTypePipeline (codeProbeUpdate c)).isOk) ∧
    (∀ o u2, createWidgetTypePipeline (codeProbeCreate c) = .ok o →
      updateWidgetTypePipeline (codeProbeUpdate c) = .ok u2 →
      o.code = u2.code ∧ o.code = some (jsTrim (jsToUpper c))) ∧
    ((createWidgetTypePipeline (nameProbeCreate nm)).isOk
      = (updateWidgetTypePipeline (nameProbeUpdate nm)).isOk) ∧
    (∀ o u2, createWidgetTypePipeline (nameProbeCreate nm) = .ok o →
      updateWidgetTypePipeline (nameProbeUpdate nm) = .ok u2 →
      o.name = u2.name ∧ o.name = some (jsTrim nm)) := by
  refine ⟨?_, ?_, ?_, ?_⟩
  · by_cases hcnil : c = []
    · subst hcnil
      decide
    · cases hfmt : checkCodeFormat c with
      | error e =>
        rw [createPipeline_error_of_preCreate
            (preCreate_error_of_checkFormat rfl hcnil hfmt),
          updatePipeline_error_of_preUpdate
            (preUpdate_error_of_checkFormat rfl hcnil hfmt)]
      | ok v =>
        cases v
        rw [createPipeline_codeProbe c hcnil hfmt,
          updatePipeline_codeProbe c hcnil hfmt]
        by_cases hl : (jsTrim c).length > 50
        · rw [if_pos hl, if_pos hl]
        · rw [if_neg hl, if_neg hl]
          rfl
  · intro o u2 hco hup
    by_cases hcnil : c = []
    · exfalso
      subst hcnil
      have hfalse : (createWidgetTypePipeline (codeProbeCreate [])).isOk = false := by
        decide
      rw [hco] at hfalse
      exact Bool.noConfusion hfalse
    · cases hfmt : checkCodeFormat c with
      | error e =>
        rw [createPipeline_error_of_preCreate
            (preCreate_error_of_checkFormat rfl hcnil hfmt)] at hco
        exact Except.noConfusion hco
      | ok v =>
        cases v
        rw [createPipeline_codeProbe c hcnil hfmt] at hco
        rw [updatePipeline_codeProbe c hcnil hfmt] at hup
        by_cases hl : (jsTrim c).length > 50
        · rw [if_pos hl] at hco
          exact Except.noConfusion hco
        · rw [if_neg hl] at hco hup
          cases hco
          cases hup
          exact ⟨rfl, rfl⟩
  · by_cases htne : jsTrim nm = []
    · rw [createPipeline_nameProbe_required htne,
        updatePipeline_nameProbe_required htne]
    · rw [createPipeline_nameProbe nm htne, updatePipeline_nameProbe nm htne]
      by_cases hl : (jsTrim nm).length > 255
      · rw [if_pos hl, if_pos hl]
      · rw [if_neg hl, if_neg hl]
        rfl
  · intro o u2 hco hup
    by_cases htne : jsTrim nm = []
    · exfalso
      rw [createPipeline_nameProbe_required htne] at hco
      exact Except.noConfusion hco
    · rw [createPipeline_nameProbe nm htne] at hco
      rw [updatePipeline_nameProbe nm htne] at hup
      by_cases hl : (jsTrim nm).length > 255
      · rw [if_pos hl] at hco
        exact Except.noConfusion hco
      · rw [if_neg hl] at hco hup
        cases hco
        cases hup
        exact ⟨rfl, rfl⟩

/-- Witness for C5 at the concrete code `" new_type "` and name
`"  Roomy Name  "`: both probes succeed on both paths, with identically
normalized results. -/
theorem c5_witness :
    ((createWidgetTypePipeline (codeProbeCreate (str " new_type "))).isOk
      = (updateWidgetTypePipeline (codeProbeUpdate (str " new_type "))).isOk) ∧
    ({ code := some (str "NEW_TYPE"), name := some validProbeName,
       description := none, isActive := some true : WidgetTypeInput }.code
      = { code := some (str "NEW_TYPE"), name := none,
          description := none, isActive := none : WidgetTypeInput }.code ∧
     { code := some (str "NEW_TYPE"), name := some validProbeName,
       description := none, isActive := some true : WidgetTypeInput }.code
      = some (jsTrim (jsToUpper (str " new_type ")))) ∧
    ({ code := some validProbeCode, name := some (str "Roomy Name"),
       description := none, isActive := some true : WidgetTypeInput }.name
      = { code := none, name := some (str "Roomy Name"),
          description := none, isActive := none : WidgetTypeInput }.name ∧
     { code := some validProbeCode, name := some (str "Roomy Name"),
       description := none, isActive := some true : WidgetTypeInput }.name
      = some (jsTrim (str "  Roomy Name  "))) := by
  have h := c5_update_validation_matches_create (str " new_type ") (str "  Roomy Name  ")
  refine ⟨h.1, ?_, ?_⟩
  · exact h.2.1
      { code := some (str "NEW_TYPE"), name := some validProbeName,
        description := none, isActive := some true }
      { code := some (str "NEW_TYPE"), name := none,
        description := none, isActive := none }
      (by decide) (by decide)
  · exact h.2.2.2
      { code := some validProbeCode, name := some (str "Roomy Name"),
        description := none, isActive := some true }
      { code := none, name := some (str "Roomy Name"),
        description := none, isActive := none }
      (by decide) (by decide)

-- ### The Widget library (spec-modelled: src/lib/WidgetLib.ts is not in the repo)

/-- A partial Widget payload (`Partial<WidgetProperties>`). -/
structure WidgetInput where
  widgetTypeId : Option Nat := none
  name : Option Str := none
  description : Option Str := none
  isActive : Option Bool := none
  data : Option Str := none
deriving DecidableEq, Repr

/-- Whether a Widget payload references an existing, active WidgetType. -/
def validTypeRefB (db : DB) (input : WidgetInput) : Bool :=
  match input.widgetTypeId with
  | none => false
  | some tid =>
    match db.widgetTypes.find? (fun r => r.id == tid) with
    | none => false
    | some wt => wt.isActive

/-- Modelled from the spec: the Widget library source (`src/lib/WidgetLib.ts`)
is missing from the repository; only its tests exist. Spec §3: a Widget is
"created only if its referenced WidgetType exists and is active; otherwise
creation is rejected", its `name` is at most 255 characters and `isActive`
defaults to `true`; spec §8: the create path trims leading/trailing whitespace
from `name`. A thrown error stores nothing. -/
def dbCreateWidget (db : DB) (input : WidgetInput) (newId : Nat) :
    Except String DB :=
  match input.widgetTypeId with
  | none => .error "Widget type ID is required"
  | some tid =>
    match db.widgetTypes.find? (fun r => r.id == tid) with
    | none => .error "Widget type does not exist"
    | some wt =>
      if !wt.isActive then .error "Widget type is not active"
      else
        match input.name with
        | none => .error "Widget name is required"
        | some nm =>
          if (jsTrim nm).isEmpty then .error "Widget name is required"
          else if (jsTrim nm).length > 255 then
            .error "Widget name must be 255 characters or less"
          else .ok { db with widgets := db.widgets ++
            [{ id := newId, widgetTypeId := tid, name := jsTrim nm,
               description := input.description,
               isActive := input.isActive.getD true, data := input.data }] }

/-- Modelled from the spec: update path of the missing Widget library
(`src/lib/WidgetLib.ts`). Spec §8/§9: the update path does not re-trim the
`name` — supplied fields overwrite the stored row verbatim; updating a
missing widget is a not-found error. -/
def dbUpdateWidget (db : DB) (id : Nat) (updates : WidgetInput) :
    Except String DB :=
  match db.widgets.find? (fun w => w.id == id) with
  | none => .error "widget not found"
  | some w =>
    .ok { db with widgets := db.widgets.map (fun x =>
      if x.id == id then
        { id := w.id, widgetTypeId := updates.widgetTypeId.getD w.widgetTypeId,
          name := updates.name.getD w.name,
          description := match updates.description with
            | some d => some d
            | none => w.description,
          isActive := updates.isActive.getD w.isActive,
          data := match updates.data with
            | some d => some d
            | none => w.data }
      else x) }

/-- C2: widget creation succeeds only when the referenced WidgetType exists
and is active; when the reference is missing, absent, or inactive, creation
throws (and, the operation returning an error, no Widget is stored). -/
theorem c2_widget_create_requires_active_type
    (db : DB) (input : WidgetInput) (n : Nat) :
    ((dbCreateWidget db input n).isOk = true → validTypeRefB db input = true) ∧
    (validTypeRefB db input = false →
      ∃ e, dbCreateWidget db input n = .error e) := by
  constructor
  · intro hok
    unfold dbCreateWidget at hok
    unfold validTypeRefB
    cases htid : input.widgetTypeId with
    | none =>
      rw [htid] at hok
      exact Bool.noConfusion hok
    | some tid =>
      rw [htid] at hok
      dsimp only at hok
      cases hfind : db.widgetTypes.find? (fun r => r.id == tid) with
      | none =>
        rw [hfind] at hok
        exact Bool.noConfusion hok
      | some wt =>
        rw [hfind] at hok
        dsimp only at hok
        cases hact : wt.isActive with
        | false =>
          rw [hact] at hok
          exact Bool.noConfusion hok
        | true =>
          dsimp only
          rw [hfind]
          exact hact
  · intro hinv
    unfold validTypeRefB at hinv
    unfold dbCreateWidget
    cases htid : input.widgetTypeId with
    | none => exact ⟨"Widget type ID is required", rfl⟩
    | some tid =>
      rw [htid] at hinv
      dsimp only at hinv
      dsimp only
      cases hfind : db.widgetTypes.find? (fun r => r.id == tid) with
      | none => exact ⟨"Widget type does not exist", rfl⟩
      | some wt =>
        rw [hfind] at hinv
        dsimp only at hinv
        refine ⟨"Widget type is not active", ?_⟩
        dsimp only
        rw [hinv]
        rfl

/-- Witness for C2: over the empty database every reference is invalid and
creation errors; over a database holding the active type 1 a creation
succeeds, so the success implies the reference was valid. -/
theorem c2_witness :
    (∃ e, dbCreateWidget { widgetTypes := [], widgets := [] }
      { widgetTypeId := some 1, name := some (str "W") } 5 = .error e) ∧
    validTypeRefB
      { widgetTypes := [{ id := 1, code := str "BUTTON", name := str "Button" }],
        widgets := [] }
      { widgetTypeId := some 1, name := some (str "W") } = true := by
  constructor
  · exact (c2_widget_create_requires_active_type
      { widgetTypes := [], widgets := [] }
      { widgetTypeId := some 1, name := some (str "W") } 5).2 (by decide)
  · exact (c2_widget_create_requires_active_type
      { widgetTypes := [{ id := 1, code := str "BUTTON", name := str "Button" }],
        widgets := [] }
      { widgetTypeId := some 1, name := some (str "W") } 5).1 (by decide)

/-- C6: a widget-creation payload whose trimmed name is non-empty (and within
the 255-character bound of spec §3), referencing a valid WidgetType, succeeds
and stores the name with leading and trailing whitespace removed. -/
theorem c6_widget_create_trims_name
    (db : DB) (input : WidgetInput) (n : Nat) (nm : Str)
    (hnm : input.name = some nm) (hvalid : validTypeRefB db input = true)
    (htne : jsTrim nm ≠ []) (hlen : (jsTrim nm).length ≤ 255) :
    ∃ db' w, dbCreateWidget db input n = .ok db' ∧
      db'.widgets = db.widgets ++ [w] ∧ w.name = jsTrim nm := by
  unfold validTypeRefB at hvalid
  unfold dbCreateWidget
  cases htid : input.widgetTypeId with
  | none =>
    rw [htid] at hvalid
    exact Bool.noConfusion hvalid
  | some tid =>
    rw [htid] at hvalid
    dsimp only at hvalid
    dsimp only
    cases hfind : db.widgetTypes.find? (fun r => r.id == tid) with
    | none =>
      rw [hfind] at hvalid
      exact Bool.noConfusion hvalid
    | some wt =>
      rw [hfind] at hvalid
      dsimp only at hvalid
      dsimp only
      rw [if_neg (by simp [hvalid])]
      rw [hnm]
      dsimp only
      rw [if_neg (by simp [List.isEmpty_eq_false, htne])]
      rw [if_neg (by omega)]
      exact ⟨_, _, rfl, rfl, rfl⟩

/-- Witness for C6 at the payload name `"  Test Widget  "`. -/
theorem c6_witness :
    ∃ db' w, dbCreateWidget
      { widgetTypes := [{ id := 1, code := str "BUTTON", name := str "Button" }],
        widgets := [] }
      { widgetTypeId := some 1, name := some (str "  Test Widget  ") } 7
      = .ok db' ∧
      db'.widgets = [] ++ [w] ∧ w.name = jsTrim (str "  Test Widget  ") :=
  c6_widget_create_trims_name
    { widgetTypes := [{ id := 1, code := str "BUTTON", name := str "Button" }],
      widgets := [] }
    { widgetTypeId := some 1, name := some (str "  Test Widget  ") } 7
    (str "  Test Widget  ") rfl (by decide) (by decide) (by decide)

/-- C7: for every stored Widget, updating its `name` stores the supplied
string verbatim — the update path removes no whitespace — and updating an
existing widget succeeds. -/
theorem c7_widget_update_keeps_name_verbatim
    (db : DB) (id : Nat) (updates : WidgetInput) (nm : Str)
    (hnm : updates.name = some nm) :
    (db.widgets.any (fun w => w.id == id) = true →
      (dbUpdateWidget db id updates).isOk = true) ∧
    (∀ db', dbUpdateWidget db id updates = .ok db' →
      ∀ w ∈ db'.widgets, w.id = id → w.name = nm) := by
  constructor
  · intro hany
    unfold dbUpdateWidget
    cases hf : db.widgets.find? (fun w => w.id == id) with
    | none =>
      exfalso
      rw [List.find?_eq_none] at hf
      obtain ⟨w, hw, hwp⟩ := List.any_eq_true.mp hany
      exact hf w hw hwp
    | some w => rfl
  · intro db' h w hw hwid
    unfold dbUpdateWidget at h
    cases hf : db.widgets.find? (fun x => x.id == id) with
    | none =>
      rw [hf] at h
      exact Except.noConfusion h
    | some w0 =>
      rw [hf] at h
      dsimp only at h
      have hdb : db' = { db with widgets := db.widgets.map (fun x =>
          if x.id == id then
            { id := w0.id, widgetTypeId := updates.widgetTypeId.getD w0.widgetTypeId,
              name := updates.name.getD w0.name,
              description := match updates.description with
                | some d => some d
                | none => w0.description,
              isActive := updates.isActive.getD w0.isActive,
              data := match updates.data with
                | some d => some d
                | none => w0.data }
          else x) } := by
        cases h
        rfl
      subst hdb
      obtain ⟨x, hx, hgx⟩ := List.mem_map.mp hw
      by_cases hxk : x.id = id
      · rw [if_pos (by simp [hxk])] at hgx
        rw [← hgx]
        show updates.name.getD w0.name = nm
        rw [hnm]
        rfl
      · rw [if_neg (by simp [hxk])] at hgx
        exact absurd (hgx ▸ hwid) hxk

/-- Witness for C7: updating the stored widget's name to `"  Updated  "`
keeps the outer whitespace. -/
theorem c7_witness :
    (dbUpdateWidget
      { widgetTypes := [{ id := 1, code := str "BUTTON", name := str "Button" }],
        widgets := [{ id := 4, widgetTypeId := 1, name := str "Old" }] }
      4 { name := some (str "  Updated  ") }).isOk = true ∧
    ({ id := 4, widgetTypeId := 1, name := str "  Updated  " } : WidgetRec).name
      = str "  Updated  " := by
  have h := c7_widget_update_keeps_name_verbatim
    { widgetTypes := [{ id := 1, code := str "BUTTON", name := str "Button" }],
      widgets := [{ id := 4, widgetTypeId := 1, name := str "Old" }] }
    4 { name := some (str "  Updated  ") } (str "  Updated  ") rfl
  refine ⟨h.1 (by decide), ?_⟩
  exact h.2
    { widgetTypes := [{ id := 1, code := str "BUTTON", name := str "Button" }],
      widgets := [{ id := 4, widgetTypeId := 1, name := str "  Updated  " }] }
    (by decide)
    { id := 4, widgetTypeId := 1, name := str "  Updated  " }
    (by decide) rfl

/-- C9: removing a WidgetType that has associated Widgets hard-deletes only
the widget-type row: the `widgets` table is left unchanged (no cascade), and
the removed type is gone. -/
theorem c9_remove_widget_type_preserves_widgets
    (db : DB) (tid : Nat)
    (_hhas : db.widgets.any (fun w => w.widgetTypeId == tid) = true) :
    ∀ db', dbRemoveWidgetType db tid = .ok db' →
      db'.widgets = db.widgets ∧ ∀ r ∈ db'.widgetTypes, r.id ≠ tid := by
  intro db' h
  unfold dbRemoveWidgetType at h
  cases hf : db.widgetTypes.find? (fun r => r.id == tid) with
  | none =>
    rw [hf] at h
    exact Except.noConfusion h
  | some row =>
    rw [hf] at h
    dsimp only at h
    have hdb : db' = { db with
        widgetTypes := db.widgetTypes.filter (fun r => r.id != tid) } := by
      cases h
      rfl
    subst hdb
    refine ⟨rfl, ?_⟩
    intro r hr
    have := (List.mem_filter.mp hr).2
    simpa using this

/-- Witness for C9: removing type 1, which widget 4 references, leaves the
widgets table unchanged. -/
theorem c9_witness :
    ({ widgetTypes := [{ id := 2, code := str "TEXT", name := str "Text" }],
       widgets := [{ id := 4, widgetTypeId := 1, name := str "W" }] } : DB).widgets
    = ({ widgetTypes :=
           [{ id := 1, code := str "BUTTON", name := str "Button" },
            { id := 2, code := str "TEXT", name := str "Text" }],
         widgets := [{ id := 4, widgetTypeId := 1, name := str "W" }] } : DB).widgets := by
  have h := c9_remove_widget_type_preserves_widgets
    { widgetTypes :=
        [{ id := 1, code := str "BUTTON", name := str "Button" },
         { id := 2, code := str "TEXT", name := str "Text" }],
      widgets := [{ id := 4, widgetTypeId := 1, name := str "W" }] }
    1 (by decide)
    { widgetTypes := [{ id := 2, code := str "TEXT", name := str "Text" }],
      widgets := [{ id := 4, widgetTypeId := 1, name := str "W" }] }
    (by decide)
  exact h.1

-- ### Widget REST routes: error-to-status mapping (src/routes/widgetRoutes.ts)

/-- A thrown JavaScript error as the route handlers see it: its `name` and
`message`. -/
structure JsError where
  name : Str
  message : Str
deriving DecidableEq, Repr

/-- The POST /widgets catch condition (widgetRoutes.ts lines 86-96): error
names and message fragments classified as validation failures. -/
def isPostValidationError (e : JsError) : Bool :=
  e.name == str "CreateValidationError" || e.name == str "ValidationError" ||
  e.name == str "SequelizeValidationError" ||
  jsIncludes e.message (str "validation") ||
  jsIncludes e.message (str "Validation failed") ||
  jsIncludes e.message (str "required") ||
  jsIncludes e.message (str "must be") ||
  jsIncludes e.message (str "cannot be") ||
  jsIncludes e.message (str "notNull Violation") ||
  jsIncludes e.message (str "cannot be null") ||
  jsIncludes e.message (str "Required field")

/-- POST /widgets catch handler (widgetRoutes.ts lines 82-107): status and
error body. -/
def postWidgetCatch (e : JsError) : Nat × Str :=
  if isPostValidationError e then
    (400, if e.message.isEmpty then str "Validation failed" else e.message)
  else (500, str "Internal server error")

/-- The GET /widgets/:id not-found condition (widgetRoutes.ts line 209). -/
def isGetNotFound (e : JsError) : Bool :=
  e.name == str "NotFoundError" || jsIncludes e.message (str "not found")

/-- GET /widgets/:id catch handler (widgetRoutes.ts lines 205-219). -/
def getWidgetCatch (e : JsError) : Nat :=
  if isGetNotFound e then 404 else 500

/-- The PUT /widgets/:id not-found condition (widgetRoutes.ts line 125). -/
def isPutNotFound (e : JsError) : Bool :=
  e.name == str "NotFoundError" || e.name == str "UpdateError" ||
  jsIncludes e.message (str "not found") ||
  jsIncludes e.message (str "Update Failed")

/-- PUT /widgets/:id catch handler (widgetRoutes.ts lines 121-136). -/
def putWidgetCatch (e : JsError) : Nat :=
  if isPutNotFound e then 404 else 500

/-- The DELETE /widgets/:id not-found condition (widgetRoutes.ts line 154). -/
def isDeleteNotFound (e : JsError) : Bool :=
  e.name == str "NotFoundError" || e.name == str "RemoveError" ||
  jsIncludes e.message (str "not found")

/-- DELETE /widgets/:id catch handler (widgetRoutes.ts lines 150-165). -/
def deleteWidgetCatch (e : JsError) : Nat :=
  if isDeleteNotFound e then 404 else 500

/-- C10: the widget routes map errors to statuses by category. A validation
error thrown by the library create operation (the `CreateValidationError` of
fjell-lib) yields 400 with the error message at POST /widgets; an error
signalling that the target widget does not exist (name `NotFoundError` or a
message containing "not found") yields 404 at GET/PUT/DELETE /widgets/:id;
every error outside each handler's recognized category yields 500. -/
theorem c10_widget_routes_error_mapping (e : JsError) :
    (e.name = str "CreateValidationError" → e.message ≠ [] →
      postWidgetCatch e = (400, e.message)) ∧
    ((e.name = str "NotFoundError" ∨ jsIncludes e.message (str "not found") = true) →
      getWidgetCatch e = 404 ∧ putWidgetCatch e = 404 ∧ deleteWidgetCatch e = 404) ∧
    (isPostValidationError e = false →
      postWidgetCatch e = (500, str "Internal server error")) ∧
    (isGetNotFound e = false → getWidgetCatch e = 500) ∧
    (isPutNotFound e = false → putWidgetCatch e = 500) ∧
    (isDeleteNotFound e = false → deleteWidgetCatch e = 500) := by
  refine ⟨?_, ?_, ?_, ?_, ?_, ?_⟩
  · intro hname hmsg
    have hval : isPostValidationError e = true := by
      unfold isPostValidationError
      rw [hname]
      simp
    unfold postWidgetCatch
    rw [if_pos hval, if_neg (by simp [List.isEmpty_eq_false, hmsg])]
  · intro hnf
    have hg : isGetNotFound e = true := by
      unfold isGetNotFound
      rcases hnf with hn | hm
      · rw [hn]
        simp
      · rw [hm]
        simp
    have hp : isPutNotFound e = true := by
      unfold isPutNotFound
      rcases hnf with hn | hm
      · rw [hn]
        simp
      · rw [hm]
        simp
    have hd : isDeleteNotFound e = true := by
      unfold isDeleteNotFound
      rcases hnf with hn | hm
      · rw [hn]
        simp
      · rw [hm]
        simp
    exact ⟨by unfold getWidgetCatch; rw [if_pos hg],
      by unfold putWidgetCatch; rw [if_pos hp],
      by unfold deleteWidgetCatch; rw [if_pos hd]⟩
  · intro hv
    unfold postWidgetCatch
    rw [if_neg (by simp [hv])]
  · intro hv
    unfold getWidgetCatch
    rw [if_neg (by simp [hv])]
  · intro hv
    unfold putWidgetCatch
    rw [if_neg (by simp [hv])]
  · intro hv
    unfold deleteWidgetCatch
    rw [if_neg (by simp [hv])]

/-- Witness for C10 at three concrete errors: the fjell create-validation
error, the library not-found error, and an unrecognized error. -/
theorem c10_witness :
    postWidgetCatch
      { name := str "CreateValidationError",
        message := str "Validation failed: Create Validation Failed" }
      = (400, str "Validation failed: Create Validation Failed") ∧
    getWidgetCatch
      { name := str "Error", message := str "Item not found for key" } = 404 ∧
    putWidgetCatch
      { name := str "Error", message := str "Item not found for key" } = 404 ∧
    deleteWidgetCatch
      { name := str "Error", message := str "Item not found for key" } = 404 ∧
    postWidgetCatch { name := str "Error", message := str "boom" }
      = (500, str "Internal server error") ∧
    getWidgetCatch { name := str "Error", message := str "boom" } = 500 := by
  have h1 := c10_widget_routes_error_mapping
    { name := str "CreateValidationError",
      message := str "Validation failed: Create Validation Failed" }
  have h2 := c10_widget_routes_error_mapping
    { name := str "Error", message := str "Item not found for key" }
  have h3 := c10_widget_routes_error_mapping
    { name := str "Error", message := str "boom" }
  obtain ⟨hg, hp, hd⟩ := h2.2.1 (Or.inr (by decide))
  exact ⟨h1.1 rfl (by decide), hg, hp, hd,
    h3.2.2.1 (by decide), h3.2.2.2.1 (by decide)⟩
